import Mathlib

/-!
# OGRE GLES2 program pipeline: uniform updater and pipeline lifecycle

A shallow embedding of `GLSLESProgramPipeline`
(`RenderSystems/GLES2/src/GLSLES/src/OgreGLSLESProgramPipeline.cpp`).

Conventions of the embedding.

* Driver calls and calls into collaborators are recorded, in program order, as a list of
  events returned next to the new state.
* A pointer into a constant buffer is the list of 32-bit words stored from that address on
  (float constants by their IEEE-754 bit pattern, int constants in two's complement).
* A null pointer is `none`; dereferencing it makes the operation return `none`.
* `size_t` values are natural numbers; the conversions to `GLsizei` are explicit.
-/

namespace Ogre

/-! ## Data model -/

/-- Shader stage tag of the engine (`GpuProgramType`). -/
inductive GpuProgramType where
  | GPT_VERTEX_PROGRAM
  | GPT_FRAGMENT_PROGRAM
  | GPT_GEOMETRY_PROGRAM
  | GPT_DOMAIN_PROGRAM
  | GPT_HULL_PROGRAM
  | GPT_COMPUTE_PROGRAM
  deriving DecidableEq, Repr

/-- Constant kinds (`GpuConstantType`): every enumerator named by the two switches of
`updateUniforms`; `GCT_OTHER` stands for any enumerator they do not name. -/
inductive GpuConstantType where
  | GCT_FLOAT1 | GCT_FLOAT2 | GCT_FLOAT3 | GCT_FLOAT4
  | GCT_SAMPLER1D | GCT_SAMPLER2D | GCT_SAMPLER3D | GCT_SAMPLERCUBE | GCT_SAMPLERRECT
  | GCT_SAMPLER1DSHADOW | GCT_SAMPLER2DSHADOW | GCT_SAMPLER2DARRAY
  | GCT_MATRIX_2X2 | GCT_MATRIX_2X3 | GCT_MATRIX_2X4
  | GCT_MATRIX_3X2 | GCT_MATRIX_3X3 | GCT_MATRIX_3X4
  | GCT_MATRIX_4X2 | GCT_MATRIX_4X3 | GCT_MATRIX_4X4
  | GCT_INT1 | GCT_INT2 | GCT_INT3 | GCT_INT4
  | GCT_SUBROUTINE
  | GCT_DOUBLE1 | GCT_DOUBLE2 | GCT_DOUBLE3 | GCT_DOUBLE4
  | GCT_MATRIX_DOUBLE_2X2 | GCT_MATRIX_DOUBLE_2X3 | GCT_MATRIX_DOUBLE_2X4
  | GCT_MATRIX_DOUBLE_3X2 | GCT_MATRIX_DOUBLE_3X3 | GCT_MATRIX_DOUBLE_3X4
  | GCT_MATRIX_DOUBLE_4X2 | GCT_MATRIX_DOUBLE_4X3 | GCT_MATRIX_DOUBLE_4X4
  | GCT_UNKNOWN
  | GCT_OTHER (tag : Nat)
  deriving DecidableEq, Repr

/-- One entry of a stage's constant definition table (`GpuConstantDefinition`). -/
structure GpuConstantDefinition where
  constType : GpuConstantType
  physicalIndex : Nat
  elementSize : Nat
  arraySize : Nat
  variability : Nat
  deriving DecidableEq, Repr

/-- A uniform reference record (`GLUniformReference`): driver location, owning stage and the
constant definition it points to. -/
structure GLUniformReference where
  mLocation : Int
  mSourceProgType : GpuProgramType
  mConstantDef : GpuConstantDefinition
  deriving DecidableEq, Repr

/-- One shared-parameter usage of a parameter block (`GpuSharedParametersUsage`): the name of
the shared parameter set and its float constant list, as 32-bit words. -/
structure GpuSharedParametersUsage where
  mName : String
  mFloatConstants : List Nat
  deriving DecidableEq, Repr

/-- The parameter block (`GpuProgramParameters`) as far as the pipeline reads it: the float
constant buffer and the int constant buffer, as 32-bit words, the shared-parameter usage list
(`getSharedParameters`), and the physical index of the pass-iteration number
(`getPassIterationNumberIndex`), absent when `hasPassIterationNumber()` is false. -/
structure GpuProgramParameters where
  mFloatConstants : List Nat
  mIntConstants : List Nat
  mSharedParamSets : List GpuSharedParametersUsage := []
  mActivePassIterationIndex : Option Nat := none
  deriving DecidableEq, Repr

/-- Pointer to the float constant at `pos` (`getFloatPointer`). -/
def GpuProgramParameters.getFloatPointer (params : GpuProgramParameters) (pos : Nat) : List Nat :=
  params.mFloatConstants.drop pos

/-- Pointer to the int constant at `pos` (`getIntPointer`). -/
def GpuProgramParameters.getIntPointer (params : GpuProgramParameters) (pos : Nat) : List Nat :=
  params.mIntConstants.drop pos

/-- Conversion of an unsigned size to the driver's signed 32-bit `GLsizei`. -/
def toGLsizei (n : Nat) : Int :=
  if n % 2 ^ 32 < 2 ^ 31 then ((n % 2 ^ 32 : Nat) : Int) else ((n % 2 ^ 32 : Nat) : Int) - 2 ^ 32

/-- Vector set-uniform entry points of the driver. -/
inductive UniformFn where
  | glProgramUniform1fvEXT | glProgramUniform2fvEXT | glProgramUniform3fvEXT | glProgramUniform4fvEXT
  | glProgramUniform1ivEXT | glProgramUniform2ivEXT | glProgramUniform3ivEXT | glProgramUniform4ivEXT
  deriving DecidableEq, Repr

/-- Matrix set-uniform entry points of the driver. -/
inductive MatrixFn where
  | glProgramUniformMatrix2fvEXT | glProgramUniformMatrix3fvEXT | glProgramUniformMatrix4fvEXT
  | glProgramUniformMatrix2x3fvEXT | glProgramUniformMatrix2x4fvEXT
  | glProgramUniformMatrix3x2fvEXT | glProgramUniformMatrix3x4fvEXT
  | glProgramUniformMatrix4x2fvEXT | glProgramUniformMatrix4x3fvEXT
  deriving DecidableEq, Repr

/-- What the uniform updater does to the outside world, in program order. -/
inductive UniformEvent where
  | cacheUpdateUniform (location : Int) (value : List Nat) (length : Int)
  | glProgramUniform (fn : UniformFn) (progID : Nat) (location : Int) (count : Int)
      (value : List Nat)
  | glProgramUniformMatrix (fn : MatrixFn) (progID : Nat) (location : Int) (count : Int)
      (transpose : Bool) (value : List Nat)
  deriving DecidableEq, Repr

/-- A set-uniform driver call, as opposed to a consultation of the uniform cache. -/
def UniformEvent.isDispatch : UniformEvent → Bool
  | .cacheUpdateUniform _ _ _ => false
  | .glProgramUniform _ _ _ _ _ => true
  | .glProgramUniformMatrix _ _ _ _ _ _ => true

/-- Program handle a set-uniform call is sent to. -/
def UniformEvent.progID? : UniformEvent → Option Nat
  | .cacheUpdateUniform _ _ _ => none
  | .glProgramUniform _ p _ _ _ => some p
  | .glProgramUniformMatrix _ p _ _ _ _ => some p

/-- Location an event is about. -/
def UniformEvent.location : UniformEvent → Int
  | .cacheUpdateUniform l _ _ => l
  | .glProgramUniform _ _ l _ _ => l
  | .glProgramUniformMatrix _ _ l _ _ _ => l

/-- Number of scalars per array element a vector entry point reads. -/
def UniformFn.components : UniformFn → Nat
  | .glProgramUniform1fvEXT => 1 | .glProgramUniform2fvEXT => 2
  | .glProgramUniform3fvEXT => 3 | .glProgramUniform4fvEXT => 4
  | .glProgramUniform1ivEXT => 1 | .glProgramUniform2ivEXT => 2
  | .glProgramUniform3ivEXT => 3 | .glProgramUniform4ivEXT => 4

/-- Whether a vector entry point uploads integers. -/
def UniformFn.isInt : UniformFn → Bool
  | .glProgramUniform1ivEXT | .glProgramUniform2ivEXT
  | .glProgramUniform3ivEXT | .glProgramUniform4ivEXT => true
  | _ => false

/-- Number of scalars per array element a matrix entry point reads. -/
def MatrixFn.components : MatrixFn → Nat
  | .glProgramUniformMatrix2fvEXT => 4 | .glProgramUniformMatrix3fvEXT => 9
  | .glProgramUniformMatrix4fvEXT => 16
  | .glProgramUniformMatrix2x3fvEXT => 6 | .glProgramUniformMatrix2x4fvEXT => 8
  | .glProgramUniformMatrix3x2fvEXT => 6 | .glProgramUniformMatrix3x4fvEXT => 12
  | .glProgramUniformMatrix4x2fvEXT => 8 | .glProgramUniformMatrix4x3fvEXT => 12

/-- The scalars the driver reads for a set-uniform call: `components * count` words from the
pointer the call was given. -/
def UniformEvent.uploaded : UniformEvent → List Nat
  | .cacheUpdateUniform _ _ _ => []
  | .glProgramUniform fn _ _ count value => value.take (fn.components * count.toNat)
  | .glProgramUniformMatrix fn _ _ count _ value => value.take (fn.components * count.toNat)

/-! ## Uniform updater -/

/-- First switch of `updateUniforms` (source lines 279-303): the kinds whose bytes are handed to
the uniform cache through the int pointer; every other kind goes through the float pointer.
`gles3` is `OGRE_NO_GLES3_SUPPORT == 0`. -/
def cachedAsInt (gles3 : Bool) : GpuConstantType → Bool
  | .GCT_INT1 | .GCT_INT2 | .GCT_INT3 | .GCT_INT4 => true
  | .GCT_SAMPLER1D | .GCT_SAMPLER1DSHADOW | .GCT_SAMPLER2D | .GCT_SAMPLER2DSHADOW
  | .GCT_SAMPLER3D | .GCT_SAMPLERCUBE => true
  | .GCT_SAMPLER2DARRAY => gles3
  | _ => false

/-- Second switch of `updateUniforms` (source lines 309-421): the driver call for one
reference whose value changed. -/
def dispatchUniform (gles3 : Bool) (progID : Nat) (params : GpuProgramParameters)
    (r : GLUniformReference) : List UniformEvent :=
  let d := r.mConstantDef
  let glArraySize := toGLsizei d.arraySize
  let fp := params.getFloatPointer d.physicalIndex
  let ip := params.getIntPointer d.physicalIndex
  match d.constType with
  | .GCT_FLOAT1 => [.glProgramUniform .glProgramUniform1fvEXT progID r.mLocation glArraySize fp]
  | .GCT_FLOAT2 => [.glProgramUniform .glProgramUniform2fvEXT progID r.mLocation glArraySize fp]
  | .GCT_FLOAT3 => [.glProgramUniform .glProgramUniform3fvEXT progID r.mLocation glArraySize fp]
  | .GCT_FLOAT4 => [.glProgramUniform .glProgramUniform4fvEXT progID r.mLocation glArraySize fp]
  | .GCT_MATRIX_2X2 =>
      [.glProgramUniformMatrix .glProgramUniformMatrix2fvEXT progID r.mLocation glArraySize false fp]
  | .GCT_MATRIX_3X3 =>
      [.glProgramUniformMatrix .glProgramUniformMatrix3fvEXT progID r.mLocation glArraySize false fp]
  | .GCT_MATRIX_4X4 =>
      [.glProgramUniformMatrix .glProgramUniformMatrix4fvEXT progID r.mLocation glArraySize false fp]
  | .GCT_INT1 => [.glProgramUniform .glProgramUniform1ivEXT progID r.mLocation glArraySize ip]
  | .GCT_INT2 => [.glProgramUniform .glProgramUniform2ivEXT progID r.mLocation glArraySize ip]
  | .GCT_INT3 => [.glProgramUniform .glProgramUniform3ivEXT progID r.mLocation glArraySize ip]
  | .GCT_INT4 => [.glProgramUniform .glProgramUniform4ivEXT progID r.mLocation glArraySize ip]
  | .GCT_SAMPLER1D | .GCT_SAMPLER1DSHADOW | .GCT_SAMPLER2D | .GCT_SAMPLER2DSHADOW
  | .GCT_SAMPLER3D | .GCT_SAMPLERCUBE =>
      [.glProgramUniform .glProgramUniform1ivEXT progID r.mLocation 1 ip]
  | .GCT_SAMPLER2DARRAY =>
      if gles3 then [.glProgramUniform .glProgramUniform1ivEXT progID r.mLocation 1 ip] else []
  | .GCT_MATRIX_2X3 =>
      if gles3 then
        [.glProgramUniformMatrix .glProgramUniformMatrix2x3fvEXT progID r.mLocation glArraySize false fp]
      else []
  | .GCT_MATRIX_2X4 =>
      if gles3 then
        [.glProgramUniformMatrix .glProgramUniformMatrix2x4fvEXT progID r.mLocation glArraySize false fp]
      else []
  | .GCT_MATRIX_3X2 =>
      if gles3 then
        [.glProgramUniformMatrix .glProgramUniformMatrix3x2fvEXT progID r.mLocation glArraySize false fp]
      else []
  | .GCT_MATRIX_3X4 =>
      if gles3 then
        [.glProgramUniformMatrix .glProgramUniformMatrix3x4fvEXT progID r.mLocation glArraySize false fp]
      else []
  | .GCT_MATRIX_4X2 =>
      if gles3 then
        [.glProgramUniformMatrix .glProgramUniformMatrix4x2fvEXT progID r.mLocation glArraySize false fp]
      else []
  | .GCT_MATRIX_4X3 =>
      if gles3 then
        [.glProgramUniformMatrix .glProgramUniformMatrix4x3fvEXT progID r.mLocation glArraySize false fp]
      else []
  | _ => []

/-- The arguments of the cache consultation for one reference: pointer and byte length
(source lines 294-301; `sizeof(int)` and `sizeof(float)` are 4). -/
def cacheQuery (gles3 : Bool) (params : GpuProgramParameters) (r : GLUniformReference) :
    List Nat × Int :=
  let d := r.mConstantDef
  if cachedAsInt gles3 d.constType then
    (params.getIntPointer d.physicalIndex, toGLsizei (d.elementSize * d.arraySize * 4))
  else
    (params.getFloatPointer d.physicalIndex, toGLsizei (d.elementSize * d.arraySize * 4))

/-- Body of the loop for a reference that passed the stage and variability filters (source
lines 277-421). `upd` is the uniform cache's `updateUniform(location, value, length)`, which
answers whether the driver has to be called and yields the cache's next state. -/
def processUniform {σ : Type} (upd : σ → Int → List Nat → Int → Bool × σ) (gles3 : Bool)
    (progID : Nat) (params : GpuProgramParameters) (c : σ) (r : GLUniformReference) :
    σ × List UniformEvent :=
  let q := cacheQuery gles3 params r
  let res := upd c r.mLocation q.1 q.2
  let shouldUpdate := res.1
  if !shouldUpdate then
    (res.2, [.cacheUpdateUniform r.mLocation q.1 q.2])
  else
    (res.2, .cacheUpdateUniform r.mLocation q.1 q.2 :: dispatchUniform gles3 progID params r)

/-- One iteration of the loop of `updateUniforms` (source lines 267-425). `cache` is the
`uniformCache` pointer, null when the stage is neither vertex nor fragment. -/
def updateUniformStep {σ : Type} (upd : σ → Int → List Nat → Int → Bool × σ) (gles3 : Bool)
    (progID : Nat) (params : GpuProgramParameters) (mask : Nat) (fromProgType : GpuProgramType)
    (cache : Option σ) (r : GLUniformReference) : Option (Option σ × List UniformEvent) :=
  if fromProgType = r.mSourceProgType then
    if r.mConstantDef.variability &&& mask ≠ 0 then
      match cache with
      | none => none
      | some c =>
          let res := processUniform upd gles3 progID params c r
          some (some res.1, res.2)
    else some (cache, [])
  else some (cache, [])

/-- The loop of `updateUniforms` over the reference list. -/
def updateUniformLoop {σ : Type} (upd : σ → Int → List Nat → Int → Bool × σ) (gles3 : Bool)
    (progID : Nat) (params : GpuProgramParameters) (mask : Nat) (fromProgType : GpuProgramType) :
    Option σ → List GLUniformReference → Option (Option σ × List UniformEvent)
  | cache, [] => some (cache, [])
  | cache, r :: rs =>
      match updateUniformStep upd gles3 progID params mask fromProgType cache r with
      | none => none
      | some (cache1, evs1) =>
          match updateUniformLoop upd gles3 progID params mask fromProgType cache1 rs with
          | none => none
          | some (cache2, evs2) => some (cache2, evs1 ++ evs2)

/-- One shader stage program (`GLSLESProgram`) as far as the pipeline uses it. The uniform
cache it owns has an abstract state `σ`. -/
structure GLSLESProgram (σ : Type) where
  mName : String
  mGLProgramHandle : Nat
  mLinked : Bool
  mUniformCache : σ
  mConstantDefs : List (String × GpuConstantDefinition)
  mSkeletalAnimation : Bool
  mUseOptimiser : String

/-- The pipeline object (`GLSLESProgramPipeline` with the members it inherits from
`GLSLESProgramCommon`). A stage program pointer may be null. Uniform buffer references are
hardware buffer handles. -/
structure GLSLESProgramPipeline (σ : Type) where
  mVertexProgram : Option (GLSLESProgram σ)
  mFragmentProgram : Option (GLSLESProgram σ)
  mGLProgramHandle : Nat
  mLinked : Nat
  mTriedToLinkAndFailed : Bool
  mUniformRefsBuilt : Bool
  mGLUniformReferences : List GLUniformReference
  mGLUniformBufferReferences : List Nat
  mSkeletalAnimation : Bool

/-- The program of a stage, when the pipeline has one (null for every other stage tag). -/
def GLSLESProgramPipeline.stageProgram {σ : Type} (p : GLSLESProgramPipeline σ) :
    GpuProgramType → Option (GLSLESProgram σ)
  | .GPT_VERTEX_PROGRAM => p.mVertexProgram
  | .GPT_FRAGMENT_PROGRAM => p.mFragmentProgram
  | _ => none

/-- Store the state the uniform cache of a stage was left in (the cache is updated in place
through the pointer the stage program owns). -/
def GLSLESProgramPipeline.setUniformCache {σ : Type} (p : GLSLESProgramPipeline σ)
    (fromProgType : GpuProgramType) (cache : Option σ) : GLSLESProgramPipeline σ :=
  match cache with
  | none => p
  | some c =>
      match fromProgType with
      | .GPT_VERTEX_PROGRAM =>
          { p with mVertexProgram := p.mVertexProgram.map (fun vp => { vp with mUniformCache := c }) }
      | .GPT_FRAGMENT_PROGRAM =>
          { p with mFragmentProgram := p.mFragmentProgram.map (fun fp => { fp with mUniformCache := c }) }
      | _ => p

/-- The program handle and uniform cache pointer `updateUniforms` starts from (source lines
254-265); `none` when the stage program it dereferences is null. -/
def selectStage {σ : Type} (p : GLSLESProgramPipeline σ) (fromProgType : GpuProgramType) :
    Option (Nat × Option σ) :=
  if fromProgType = .GPT_VERTEX_PROGRAM then
    match p.mVertexProgram with
    | none => none
    | some vp => some (vp.mGLProgramHandle, some vp.mUniformCache)
  else if fromProgType = .GPT_FRAGMENT_PROGRAM then
    match p.mFragmentProgram with
    | none => none
    | some fp => some (fp.mGLProgramHandle, some fp.mUniformCache)
  else some (0, none)

/-- `GLSLESProgramPipeline::updateUniforms(params, mask, fromProgType)`: the pipeline afterwards
and the events in program order, or `none` when a null pointer is dereferenced. -/
def updateUniforms {σ : Type} (upd : σ → Int → List Nat → Int → Bool × σ) (gles3 : Bool)
    (p : GLSLESProgramPipeline σ) (params : GpuProgramParameters) (mask : Nat)
    (fromProgType : GpuProgramType) : Option (GLSLESProgramPipeline σ × List UniformEvent) :=
  match selectStage p fromProgType with
  | none => none
  | some (progID, uniformCache) =>
      match updateUniformLoop upd gles3 progID params mask fromProgType uniformCache
          p.mGLUniformReferences with
      | none => none
      | some (cache1, evs) => some (p.setUniformCache fromProgType cache1, evs)

/-- The set-uniform driver calls among the events. -/
def dispatches (evs : List UniformEvent) : List UniformEvent :=
  evs.filter UniformEvent.isDispatch

/-! ## Pipeline lifecycle -/

/-- Modelled from the spec: the per-stage bits of the linked bitmask
(`VERTEX_LINKED | FRAGMENT_LINKED`), declared in a header outside this file; this is the vertex
bit. -/
def VERTEX_PROGRAM_LINKED : Nat := 1

/-- Modelled from the spec: the fragment bit of the linked bitmask, declared in a header
outside this file. -/
def FRAGMENT_PROGRAM_LINKED : Nat := 2

/-- What the driver and the microcode cache answer for one stage during one run of
`compileAndLink`. -/
structure StageOutcome where
  createdHandle : Nat
  microcodeInCache : Bool
  compileOk : Bool
  linkStatus : Int

/-- The answers of the outside world during one activation: the pipeline handle the driver
generates, the outcome of each stage, the `RSC_DEBUG` capability, and the result of the
engine's static `extractUniforms(handle, vertexDefs, fragmentDefs, refs, bufferRefs)`. -/
structure Driver where
  pipelineHandle : Nat
  vertex : StageOutcome
  fragment : StageOutcome
  debugCapability : Bool
  extractUniforms : Nat → Option (List (String × GpuConstantDefinition)) →
    Option (List (String × GpuConstantDefinition)) → List GLUniformReference → List Nat →
    List GLUniformReference × List Nat

/-- Calls the lifecycle code makes, in program order. -/
inductive LifecycleEvent where
  | glGenProgramPipelinesEXT (pipeline : Nat)
  | createGLProgramHandle (name : String) (handle : Nat)
  | getMicrocodeFromCache (name : String) (handle : Nat)
  | compile (name : String)
  | logCritical (name : String)
  | bindFixedAttributes (handle : Nat)
  | glProgramParameteriEXT (handle : Nat)
  | attachToProgramObject (name : String) (handle : Nat)
  | glLinkProgram (handle : Nat)
  | glGetProgramiv (handle : Nat)
  | logObjectInfo (handle : Nat)
  | glUseProgramStagesEXT (pipeline : Nat) (stage : GpuProgramType) (handle : Nat)
  | writeToCache (name : String) (handle : Nat)
  | glLabelObjectEXT (pipeline : Nat) (label : String)
  | glGetError
  | optimiseShaderSource (name : String)
  | extractLayoutQualifiers
  | extractUniforms (handle : Nat) (stage : GpuProgramType)
  | glBindProgramPipelineEXT (pipeline : Nat)
  deriving DecidableEq, Repr

/-- A microcode-cache lookup, a compile or a link. -/
def LifecycleEvent.isBuildAttempt : LifecycleEvent → Bool
  | .getMicrocodeFromCache _ _ => true
  | .compile _ => true
  | .glLinkProgram _ => true
  | _ => false

/-- Vertex part of `compileAndLink` (source lines 59-104). The Boolean says that the function
returned early. -/
def compileAndLinkVertex {σ : Type} (drv : Driver) (p : GLSLESProgramPipeline σ) :
    GLSLESProgramPipeline σ × List LifecycleEvent × Bool :=
  match p.mVertexProgram with
  | none => (p, [], false)
  | some vp =>
      if vp.mLinked then
        ({ p with mLinked := p.mLinked ||| VERTEX_PROGRAM_LINKED }, [], false)
      else
        let h := drv.vertex.createdHandle
        let vp1 : GLSLESProgram σ := { vp with mGLProgramHandle := h }
        let lookup : List LifecycleEvent :=
          [.createGLProgramHandle vp.mName h, .getMicrocodeFromCache vp.mName h]
        if drv.vertex.microcodeInCache then
          ({ p with
              mVertexProgram := some { vp1 with mLinked := true }
              mLinked := p.mLinked ||| VERTEX_PROGRAM_LINKED
              mTriedToLinkAndFailed := false }, lookup, false)
        else if !drv.vertex.compileOk then
          ({ p with mVertexProgram := some vp1, mTriedToLinkAndFailed := true },
            lookup ++ [.compile vp.mName, .logCritical vp.mName], true)
        else
          let linkStatus := drv.vertex.linkStatus
          ({ p with
              mVertexProgram :=
                some (if linkStatus ≠ 0 then { vp1 with mLinked := true } else vp1)
              mLinked := if linkStatus ≠ 0 then p.mLinked ||| VERTEX_PROGRAM_LINKED else p.mLinked
              mTriedToLinkAndFailed := decide (linkStatus = 0)
              mSkeletalAnimation := vp.mSkeletalAnimation },
            lookup ++ [.compile vp.mName, .bindFixedAttributes h, .glProgramParameteriEXT h,
              .attachToProgramObject vp.mName h, .glLinkProgram h, .glGetProgramiv h,
              .logObjectInfo h],
            false)

/-- Fragment part of `compileAndLink` (source lines 106-147). The Boolean says that the
function returned early. -/
def compileAndLinkFragment {σ : Type} (drv : Driver) (p : GLSLESProgramPipeline σ) :
    GLSLESProgramPipeline σ × List LifecycleEvent × Bool :=
  match p.mFragmentProgram with
  | none => (p, [], false)
  | some fp =>
      if fp.mLinked then
        ({ p with mLinked := p.mLinked ||| FRAGMENT_PROGRAM_LINKED }, [], false)
      else
        let h := drv.fragment.createdHandle
        let fp1 : GLSLESProgram σ := { fp with mGLProgramHandle := h }
        let lookup : List LifecycleEvent :=
          [.createGLProgramHandle fp.mName h, .getMicrocodeFromCache fp.mName h]
        if drv.fragment.microcodeInCache then
          ({ p with
              mFragmentProgram := some { fp1 with mLinked := true }
              mLinked := p.mLinked ||| FRAGMENT_PROGRAM_LINKED
              mTriedToLinkAndFailed := false }, lookup, false)
        else if !drv.fragment.compileOk then
          ({ p with mFragmentProgram := some fp1, mTriedToLinkAndFailed := true },
            lookup ++ [.compile fp.mName, .logCritical fp.mName], true)
        else
          let linkStatus := drv.fragment.linkStatus
          ({ p with
              mFragmentProgram :=
                some (if linkStatus ≠ 0 then { fp1 with mLinked := true } else fp1)
              mLinked :=
                if linkStatus ≠ 0 then p.mLinked ||| FRAGMENT_PROGRAM_LINKED else p.mLinked
              mTriedToLinkAndFailed := decide (linkStatus = 0) },
            lookup ++ [.compile fp.mName, .glProgramParameteriEXT h,
              .attachToProgramObject fp.mName h, .glLinkProgram h, .glGetProgramiv h,
              .logObjectInfo h],
            false)

/-- Last part of `compileAndLink` (source lines 149-169): attach the linked stages to the
pipeline object and write them to the microcode cache. -/
def attachLinkedStages {σ : Type} (drv : Driver) (p : GLSLESProgramPipeline σ) :
    List LifecycleEvent :=
  if p.mLinked ≠ 0 then
    (match p.mVertexProgram with
      | some vp =>
          if vp.mLinked then
            [.glUseProgramStagesEXT p.mGLProgramHandle .GPT_VERTEX_PROGRAM vp.mGLProgramHandle,
              .writeToCache vp.mName vp.mGLProgramHandle]
          else []
      | none => [])
    ++ (match p.mFragmentProgram with
      | some fp =>
          if fp.mLinked then
            [.glUseProgramStagesEXT p.mGLProgramHandle .GPT_FRAGMENT_PROGRAM fp.mGLProgramHandle,
              .writeToCache fp.mName fp.mGLProgramHandle]
          else []
      | none => [])
    ++ [.logObjectInfo p.mGLProgramHandle]
    ++ (match p.mVertexProgram, p.mFragmentProgram with
      | some vp, some fp =>
          if drv.debugCapability then
            [.glLabelObjectEXT p.mGLProgramHandle (vp.mName ++ "/" ++ fp.mName)]
          else []
      | _, _ => [])
  else []

/-- `GLSLESProgramPipeline::compileAndLink()` (source lines 52-170). -/
def compileAndLink {σ : Type} (drv : Driver) (p : GLSLESProgramPipeline σ) :
    GLSLESProgramPipeline σ × List LifecycleEvent :=
  let p0 := { p with mGLProgramHandle := drv.pipelineHandle }
  let gen : List LifecycleEvent := [.glGenProgramPipelinesEXT drv.pipelineHandle]
  match compileAndLinkVertex drv p0 with
  | (p1, evs1, true) => (p1, gen ++ evs1)
  | (p1, evs1, false) =>
      match compileAndLinkFragment drv p1 with
      | (p2, evs2, true) => (p2, gen ++ evs1 ++ evs2)
      | (p2, evs2, false) => (p2, gen ++ evs1 ++ evs2 ++ attachLinkedStages drv p2)

/-- `GLSLESProgramPipeline::buildGLUniformReferences()` (source lines 222-245). -/
def buildGLUniformReferences {σ : Type} (drv : Driver) (p : GLSLESProgramPipeline σ) :
    GLSLESProgramPipeline σ × List LifecycleEvent :=
  if !p.mUniformRefsBuilt then
    let v : (List GLUniformReference × List Nat) × List LifecycleEvent :=
      match p.mVertexProgram with
      | some vp =>
          (drv.extractUniforms vp.mGLProgramHandle (some vp.mConstantDefs) none
              p.mGLUniformReferences p.mGLUniformBufferReferences,
            [.extractUniforms vp.mGLProgramHandle .GPT_VERTEX_PROGRAM])
      | none => ((p.mGLUniformReferences, p.mGLUniformBufferReferences), [])
    let f : (List GLUniformReference × List Nat) × List LifecycleEvent :=
      match p.mFragmentProgram with
      | some fp =>
          (drv.extractUniforms fp.mGLProgramHandle none (some fp.mConstantDefs) v.1.1 v.1.2,
            [.extractUniforms fp.mGLProgramHandle .GPT_FRAGMENT_PROGRAM])
      | none => (v.1, [])
    ({ p with
        mGLUniformReferences := f.1.1
        mGLUniformBufferReferences := f.1.2
        mUniformRefsBuilt := true }, v.2 ++ f.2)
  else (p, [])

/-- The shader optimiser pass at the start of an activation (source lines 188-207), present
when `glslOptimiser` (`!OGRE_NO_GLES2_GLSL_OPTIMISER`). -/
def optimiseStages {σ : Type} (glslOptimiser : Bool) (p : GLSLESProgramPipeline σ) :
    List LifecycleEvent :=
  if glslOptimiser then
    (match p.mVertexProgram with
      | some vp =>
          if vp.mUseOptimiser = "true" ∨ vp.mUseOptimiser = "" then
            [.optimiseShaderSource vp.mName]
          else []
      | none => [])
    ++ (match p.mFragmentProgram with
      | some fp =>
          if fp.mUseOptimiser = "true" ∨ fp.mUseOptimiser = "" then
            [.optimiseShaderSource fp.mName]
          else []
      | none => [])
  else []

/-- `GLSLESProgramPipeline::activate()` (source lines 182-219). -/
def activate {σ : Type} (glslOptimiser : Bool) (drv : Driver) (p : GLSLESProgramPipeline σ) :
    GLSLESProgramPipeline σ × List LifecycleEvent :=
  let r : GLSLESProgramPipeline σ × List LifecycleEvent :=
    if p.mLinked = 0 ∧ p.mTriedToLinkAndFailed = false then
      let c := compileAndLink drv p
      let b := buildGLUniformReferences drv c.1
      (b.1, [LifecycleEvent.glGetError] ++ optimiseStages glslOptimiser p ++ c.2
        ++ [LifecycleEvent.extractLayoutQualifiers] ++ b.2)
    else (p, [])
  if r.1.mLinked ≠ 0 then (r.1, r.2 ++ [.glBindProgramPipelineEXT r.1.mGLProgramHandle])
  else r

/-- A sequence of `activate()` calls, one driver answer per call. -/
def activateAll {σ : Type} (glslOptimiser : Bool) :
    List Driver → GLSLESProgramPipeline σ → GLSLESProgramPipeline σ × List LifecycleEvent
  | [], p => (p, [])
  | drv :: drvs, p =>
      let a := activate glslOptimiser drv p
      let rest := activateAll glslOptimiser drvs a.1
      (rest.1, a.2 ++ rest.2)

/-! ## The uniform cache -/

/-- Modelled from the spec: the state of the uniform cache (`GLUniformCache`, declared outside
this file): the bytes last recorded for each location, none when nothing was recorded. -/
abbrev GLUniformCache : Type := Int → Option (List Nat)

/-- A cache in which nothing is recorded. -/
def GLUniformCache.empty : GLUniformCache := fun _ => none

/-- Modelled from the spec: `updateUniform(location, bytes, length)` of the uniform cache,
declared outside this file. It returns true iff the bytes differ from the last bytes recorded
for that location, and records them. The bytes are the `length / 4` words at `value`. -/
def GLUniformCache.updateUniform (c : GLUniformCache) (location : Int) (value : List Nat)
    (length : Int) : Bool × GLUniformCache :=
  let bytes := value.take (length.toNat / 4)
  (decide (c location ≠ some bytes), Function.update c location (some bytes))

/-! ## Total form of the update loop on a non-null cache -/

/-- Whether a reference passes the stage filter and the variability filter. -/
def passesFilters (mask : Nat) (fromProgType : GpuProgramType) (r : GLUniformReference) : Bool :=
  decide (fromProgType = r.mSourceProgType) && decide (r.mConstantDef.variability &&& mask ≠ 0)

/-- The loop of `updateUniforms` started on a cache that exists. -/
def runStage {σ : Type} (upd : σ → Int → List Nat → Int → Bool × σ) (gles3 : Bool)
    (progID : Nat) (params : GpuProgramParameters) (mask : Nat) (fromProgType : GpuProgramType) :
    σ → List GLUniformReference → σ × List UniformEvent
  | c, [] => (c, [])
  | c, r :: rs =>
      if passesFilters mask fromProgType r then
        let s := processUniform upd gles3 progID params c r
        let t := runStage upd gles3 progID params mask fromProgType s.1 rs
        (t.1, s.2 ++ t.2)
      else runStage upd gles3 progID params mask fromProgType c rs

/-! ## Sample data -/

/-- A stage program with an empty uniform cache. -/
def sampleProgram (name : String) (handle : Nat) (linked : Bool) : GLSLESProgram GLUniformCache :=
  { mName := name, mGLProgramHandle := handle, mLinked := linked,
    mUniformCache := GLUniformCache.empty, mConstantDefs := [], mSkeletalAnimation := false,
    mUseOptimiser := "" }

/-- Vertex constant `float4 color` at physical index 0 with variability 2, bound at location 3. -/
def colorRef : GLUniformReference :=
  { mLocation := 3, mSourceProgType := .GPT_VERTEX_PROGRAM,
    mConstantDef := { constType := .GCT_FLOAT4, physicalIndex := 0, elementSize := 4,
                      arraySize := 1, variability := 2 } }

/-- Vertex constant `float time` with variability 1, bound at location 5. -/
def timeRef : GLUniformReference :=
  { mLocation := 5, mSourceProgType := .GPT_VERTEX_PROGRAM,
    mConstantDef := { constType := .GCT_FLOAT1, physicalIndex := 4, elementSize := 1,
                      arraySize := 1, variability := 1 } }

/-- Fragment constant `sampler2D tex` at physical index 4, declared as an array of 3, bound at
location 3. -/
def texRef : GLUniformReference :=
  { mLocation := 3, mSourceProgType := .GPT_FRAGMENT_PROGRAM,
    mConstantDef := { constType := .GCT_SAMPLER2D, physicalIndex := 4, elementSize := 1,
                      arraySize := 3, variability := 2 } }

/-- Vertex constant `mat2x3` bound at location 6. -/
def mat23Ref : GLUniformReference :=
  { mLocation := 6, mSourceProgType := .GPT_VERTEX_PROGRAM,
    mConstantDef := { constType := .GCT_MATRIX_2X3, physicalIndex := 0, elementSize := 6,
                      arraySize := 1, variability := 2 } }

/-- A linked two-stage pipeline (vertex handle 7, fragment handle 8) with the given reference
list. -/
def samplePipeline (refs : List GLUniformReference) : GLSLESProgramPipeline GLUniformCache :=
  { mVertexProgram := some (sampleProgram "vs" 7 true)
    mFragmentProgram := some (sampleProgram "fs" 8 true)
    mGLProgramHandle := 1, mLinked := 3, mTriedToLinkAndFailed := false,
    mUniformRefsBuilt := true, mGLUniformReferences := refs,
    mGLUniformBufferReferences := [], mSkeletalAnimation := false }

/-- Parameter block whose float constants start with `[1.0, 0.0, 0.0, 1.0]` (as bit patterns)
and whose int constant 4 is texture unit 2. -/
def sampleParams : GpuProgramParameters :=
  { mFloatConstants := [0x3F800000, 0, 0, 0x3F800000, 0x40000000, 0, 0, 0],
    mIntConstants := [0, 0, 0, 0, 2, 0, 0] }

/-- An unlinked pipeline whose stage programs are not linked yet. -/
def freshPipeline : GLSLESProgramPipeline GLUniformCache :=
  { mVertexProgram := some (sampleProgram "vs" 0 false)
    mFragmentProgram := some (sampleProgram "fs" 0 false)
    mGLProgramHandle := 0, mLinked := 0, mTriedToLinkAndFailed := false,
    mUniformRefsBuilt := false, mGLUniformReferences := [],
    mGLUniformBufferReferences := [], mSkeletalAnimation := false }

/-- A driver whose stages answer as given and whose uniform extraction finds one reference per
call. -/
def sampleDriver (vertex fragment : StageOutcome) : Driver :=
  { pipelineHandle := 1, vertex := vertex, fragment := fragment, debugCapability := false,
    extractUniforms := fun h v _ refs bufs =>
      (refs ++ [{ (if v.isSome then colorRef else texRef) with mLocation := (h : Int) }], bufs) }

/-- Stage outcome: no cached microcode, compiles and links. -/
def stageLinks (h : Nat) : StageOutcome :=
  { createdHandle := h, microcodeInCache := false, compileOk := true, linkStatus := 1 }

/-- Stage outcome: no cached microcode, compiles, fails to link. -/
def stageLinkFails (h : Nat) : StageOutcome :=
  { createdHandle := h, microcodeInCache := false, compileOk := true, linkStatus := 0 }

/-- Stage outcome: no cached microcode, fails to compile. -/
def stageCompileFails (h : Nat) : StageOutcome :=
  { createdHandle := h, microcodeInCache := false, compileOk := false, linkStatus := 0 }

/-- Stage outcome: microcode found in the cache. -/
def stageCached (h : Nat) : StageOutcome :=
  { createdHandle := h, microcodeInCache := true, compileOk := true, linkStatus := 1 }

/-- The bytes the uniform cache is shown for a reference: the first `length / 4` words at the
pointer of its cache consultation. -/
def cachedBytes (gles3 : Bool) (params : GpuProgramParameters) (r : GLUniformReference) :
    List Nat :=
  (cacheQuery gles3 params r).1.take ((cacheQuery gles3 params r).2.toNat / 4)

/-- Data-model invariant: no two references of the same stage share a location. -/
def DistinctLocations (refs : List GLUniformReference) : Prop :=
  refs.Pairwise (fun a b => a.mSourceProgType = b.mSourceProgType → a.mLocation ≠ b.mLocation)

/-! ## The mapping from constant kinds to driver calls, as the specification words it -/

/-- Specification: float1..4 map to the float vector call of arity 1..4 and int1..4 to the
integer vector call of arity 1..4. -/
def specVectorFn : GpuConstantType → Option UniformFn
  | .GCT_FLOAT1 => some .glProgramUniform1fvEXT
  | .GCT_FLOAT2 => some .glProgramUniform2fvEXT
  | .GCT_FLOAT3 => some .glProgramUniform3fvEXT
  | .GCT_FLOAT4 => some .glProgramUniform4fvEXT
  | .GCT_INT1 => some .glProgramUniform1ivEXT
  | .GCT_INT2 => some .glProgramUniform2ivEXT
  | .GCT_INT3 => some .glProgramUniform3ivEXT
  | .GCT_INT4 => some .glProgramUniform4ivEXT
  | _ => none

/-- Specification: matrix MxN (M, N in 2..4) maps to the MxN matrix call. -/
def specMatrixFn : GpuConstantType → Option MatrixFn
  | .GCT_MATRIX_2X2 => some .glProgramUniformMatrix2fvEXT
  | .GCT_MATRIX_2X3 => some .glProgramUniformMatrix2x3fvEXT
  | .GCT_MATRIX_2X4 => some .glProgramUniformMatrix2x4fvEXT
  | .GCT_MATRIX_3X2 => some .glProgramUniformMatrix3x2fvEXT
  | .GCT_MATRIX_3X3 => some .glProgramUniformMatrix3fvEXT
  | .GCT_MATRIX_3X4 => some .glProgramUniformMatrix3x4fvEXT
  | .GCT_MATRIX_4X2 => some .glProgramUniformMatrix4x2fvEXT
  | .GCT_MATRIX_4X3 => some .glProgramUniformMatrix4x3fvEXT
  | .GCT_MATRIX_4X4 => some .glProgramUniformMatrix4fvEXT
  | _ => none

/-- Non-square single-precision matrix kinds. -/
def GpuConstantType.isNonSquareMatrix : GpuConstantType → Bool
  | .GCT_MATRIX_2X3 | .GCT_MATRIX_2X4 | .GCT_MATRIX_3X2 | .GCT_MATRIX_3X4
  | .GCT_MATRIX_4X2 | .GCT_MATRIX_4X3 => true
  | _ => false

/-- Specification: the sampler kinds that are uploaded, 1D, 1D-shadow, 2D, 2D-shadow, 3D and
cube, and 2D-array where the feature tier supports it. -/
def specUploadedSampler (gles3 : Bool) : GpuConstantType → Bool
  | .GCT_SAMPLER1D | .GCT_SAMPLER1DSHADOW | .GCT_SAMPLER2D | .GCT_SAMPLER2DSHADOW
  | .GCT_SAMPLER3D | .GCT_SAMPLERCUBE => true
  | .GCT_SAMPLER2DARRAY => gles3
  | _ => false

/-- Whether the vertex stage ends up linked in a run of `compileAndLink`: it was linked
already, its microcode is in the cache, or it compiles and links. -/
def vertexStageSucceeds {σ : Type} (drv : Driver) (p : GLSLESProgramPipeline σ) : Bool :=
  match p.mVertexProgram with
  | none => false
  | some vp =>
      vp.mLinked || drv.vertex.microcodeInCache ||
        (drv.vertex.compileOk && decide (drv.vertex.linkStatus ≠ 0))

/-! ## Uniform buffer blocks -/

/-- What the driver and the hardware buffers answer during `updateUniformBlocks`: the block
index of a name in a program (`glGetUniformBlockIndex`), and for a uniform buffer reference
its binding point (`getGLBufferBinding`) and its size (`getSizeInBytes`). -/
structure BlockDriver where
  glGetUniformBlockIndex : Nat → String → Int
  getGLBufferBinding : Nat → Nat
  getSizeInBytes : Nat → Nat

/-- Calls of `updateUniformBlocks`, in program order. `writeData` carries the buffer, the
offset, the length in bytes and the source pointer. -/
inductive BlockEvent where
  | glGetUniformBlockIndex (program : Nat) (name : String)
  | glUniformBlockBinding (program : Nat) (blockIndex : Int) (binding : Nat)
  | writeData (buffer : Nat) (offset : Nat) (length : Nat) (source : List Nat)
  deriving DecidableEq, Repr

/-- Body of the inner loop of `updateUniformBlocks` (source lines 443-451): resolve the block
of the usage `it` by name, bind it to the binding point of the buffer, and overwrite the whole
buffer with the usage's float constant list. -/
def blockStep (drv : BlockDriver) (program : Nat) (it : GpuSharedParametersUsage)
    (buffer : Nat) : List BlockEvent :=
  [.glGetUniformBlockIndex program it.mName,
    .glUniformBlockBinding program (drv.glGetUniformBlockIndex program it.mName)
      (drv.getGLBufferBinding buffer),
    .writeData buffer 0 (drv.getSizeInBytes buffer) it.mFloatConstants]

/-- Inner loop of `updateUniformBlocks` (source line 441): it advances `currentBuffer` to the
end of the buffer list. The result is the events and the position `currentBuffer` is left
at. -/
def blockInnerLoop (drv : BlockDriver) (program : Nat) (it : GpuSharedParametersUsage) :
    List Nat → List BlockEvent × List Nat
  | [] => ([], [])
  | buffer :: rest =>
      let r := blockInnerLoop drv program it rest
      (blockStep drv program it buffer ++ r.1, r.2)

/-- Outer loop of `updateUniformBlocks` (source line 439) over the shared-parameter usages.
`currentBuffer` is initialised once, before this loop (source line 433), and is carried from
one usage to the next. -/
def blockOuterLoop (drv : BlockDriver) (program : Nat) :
    List GpuSharedParametersUsage → List Nat → List BlockEvent
  | [], _ => []
  | it :: its, currentBuffer =>
      let r := blockInnerLoop drv program it currentBuffer
      r.1 ++ blockOuterLoop drv program its r.2

/-- `GLSLESProgramPipeline::updateUniformBlocks(params, mask, fromProgType)` (source lines
428-455); the body exists only when `gles3` (`OGRE_NO_GLES3_SUPPORT == 0`). -/
def updateUniformBlocks {σ : Type} (gles3 : Bool) (drv : BlockDriver)
    (p : GLSLESProgramPipeline σ) (params : GpuProgramParameters) (_mask : Nat)
    (_fromProgType : GpuProgramType) : List BlockEvent :=
  if gles3 then
    blockOuterLoop drv p.mGLProgramHandle params.mSharedParamSets p.mGLUniformBufferReferences
  else []

/-- Specification: one block-binding and write step for each (usage, buffer) pair of the
cross-product, the step for the pair (u, b) using u's name and float constant array and b's
buffer. -/
def specBlockSteps (drv : BlockDriver) (program : Nat) (usages : List GpuSharedParametersUsage)
    (buffers : List Nat) : List BlockEvent :=
  usages.flatMap (fun u => buffers.flatMap (fun b => blockStep drv program u b))

/-- Number of block-binding and write steps among the events. -/
def blockStepCount (evs : List BlockEvent) : Nat :=
  (evs.filter (fun e => match e with | .writeData _ _ _ _ => true | _ => false)).length

/-! ## Pass-iteration uniform -/

/-- The calls `updatePassIterationUniforms` makes for the reference that matches the
pass-iteration index (source lines 472-483). -/
def passIterationDispatch {σ : Type} (p : GLSLESProgramPipeline σ)
    (params : GpuProgramParameters) (index : Nat) (r : GLUniformReference) :
    List UniformEvent :=
  (match p.mVertexProgram with
    | some vp =>
        if r.mSourceProgType = .GPT_VERTEX_PROGRAM then
          [.glProgramUniform .glProgramUniform1fvEXT vp.mGLProgramHandle r.mLocation 1
            (params.getFloatPointer index)]
        else []
    | none => [])
  ++ (match p.mFragmentProgram with
    | some fp =>
        if r.mSourceProgType = .GPT_FRAGMENT_PROGRAM then
          [.glProgramUniform .glProgramUniform1fvEXT fp.mGLProgramHandle r.mLocation 1
            (params.getFloatPointer index)]
        else []
    | none => [])

/-- The scan of `updatePassIterationUniforms` over the reference list (source lines 467-488):
it returns at the first reference whose physical index is the pass-iteration index. -/
def passIterationScan {σ : Type} (p : GLSLESProgramPipeline σ) (params : GpuProgramParameters)
    (index : Nat) : List GLUniformReference → List UniformEvent
  | [] => []
  | r :: rs =>
      if index = r.mConstantDef.physicalIndex then passIterationDispatch p params index r
      else passIterationScan p params index rs

/-- `GLSLESProgramPipeline::updatePassIterationUniforms(params)` (source lines 457-490). -/
def updatePassIterationUniforms {σ : Type} (p : GLSLESProgramPipeline σ)
    (params : GpuProgramParameters) : List UniformEvent :=
  match params.mActivePassIterationIndex with
  | none => []
  | some index => passIterationScan p params index p.mGLUniformReferences

/-- The calls of `updatePassIterationUniforms` with its null guards spelled out: none without a
pass-iteration number or without a reference at that physical index; otherwise, for the first
reference in list order at that index, one single-element float call to the handle of the
program of that reference's stage when the pipeline has that program, and none when it has
not. -/
def specPassIterationCalls {σ : Type} (p : GLSLESProgramPipeline σ)
    (params : GpuProgramParameters) : List UniformEvent :=
  match params.mActivePassIterationIndex with
  | none => []
  | some index =>
      match p.mGLUniformReferences.find? (fun r => decide (r.mConstantDef.physicalIndex = index))
        with
      | none => []
      | some r =>
          match p.stageProgram r.mSourceProgType with
          | none => []
          | some prog =>
              [.glProgramUniform .glProgramUniform1fvEXT prog.mGLProgramHandle r.mLocation 1
                (params.getFloatPointer index)]

/-- Data-model invariant: the pipeline has the program of the stage of every reference in its
list (`buildGLUniformReferences` extracts the references of a stage only from a program that
exists, source lines 228-241). -/
def StageProgramsPresent {σ : Type} (p : GLSLESProgramPipeline σ) : Prop :=
  ∀ r ∈ p.mGLUniformReferences, (p.stageProgram r.mSourceProgType).isSome = true

/-! ## Write-back to the microcode cache -/

/-- A block driver: every block has index 0, a buffer is bound at its own handle and is 16
bytes long. -/
def sampleBlockDriver : BlockDriver :=
  { glGetUniformBlockIndex := fun _ _ => 0, getGLBufferBinding := fun b => b,
    getSizeInBytes := fun _ => 16 }

/-- Shared-parameter usage `A`. -/
def usageA : GpuSharedParametersUsage := { mName := "A", mFloatConstants := [1, 2, 3, 4] }

/-- Shared-parameter usage `B`. -/
def usageB : GpuSharedParametersUsage := { mName := "B", mFloatConstants := [5, 6, 7, 8] }

/-- Parameter block with the two shared-parameter usages `A` and `B`. -/
def blockParams : GpuProgramParameters :=
  { mFloatConstants := [], mIntConstants := [], mSharedParamSets := [usageA, usageB] }

/-- A linked pipeline with the single uniform buffer reference 30. -/
def blockPipeline : GLSLESProgramPipeline GLUniformCache :=
  { samplePipeline [] with mGLUniformBufferReferences := [30] }

/-- Parameter block whose pass-iteration number lives at physical index 4. -/
def passParams : GpuProgramParameters :=
  { sampleParams with mActivePassIterationIndex := some 4 }

/-- Fragment constant `float pass` at physical index 4, bound at location 2. -/
def passRef : GLUniformReference :=
  { mLocation := 2, mSourceProgType := .GPT_FRAGMENT_PROGRAM,
    mConstantDef := { constType := .GCT_FLOAT1, physicalIndex := 4, elementSize := 1,
                      arraySize := 1, variability := 8 } }

/-! ## Facts about the update loop -/

theorem updateUniformStep_some {σ : Type} (upd : σ → Int → List Nat → Int → Bool × σ)
    (gles3 : Bool) (progID : Nat) (params : GpuProgramParameters) (mask : Nat)
    (fromProgType : GpuProgramType) (c : σ) (r : GLUniformReference) :
    updateUniformStep upd gles3 progID params mask fromProgType (some c) r =
      if passesFilters mask fromProgType r then
        some (some (processUniform upd gles3 progID params c r).1,
          (processUniform upd gles3 progID params c r).2)
      else some (some c, []) := by
  unfold updateUniformStep passesFilters
  by_cases h1 : fromProgType = r.mSourceProgType <;>
    by_cases h2 : r.mConstantDef.variability &&& mask = 0 <;> simp [h1, h2]

theorem updateUniformStep_of_not_passes {σ : Type} (upd : σ → Int → List Nat → Int → Bool × σ)
    (gles3 : Bool) (progID : Nat) (params : GpuProgramParameters) (mask : Nat)
    (fromProgType : GpuProgramType) (cache : Option σ) (r : GLUniformReference)
    (h : passesFilters mask fromProgType r = false) :
    updateUniformStep upd gles3 progID params mask fromProgType cache r = some (cache, []) := by
  unfold updateUniformStep
  unfold passesFilters at h
  by_cases h1 : fromProgType = r.mSourceProgType <;>
    by_cases h2 : r.mConstantDef.variability &&& mask = 0 <;> simp_all

theorem updateUniformLoop_some {σ : Type} (upd : σ → Int → List Nat → Int → Bool × σ)
    (gles3 : Bool) (progID : Nat) (params : GpuProgramParameters) (mask : Nat)
    (fromProgType : GpuProgramType) (refs : List GLUniformReference) (c : σ) :
    updateUniformLoop upd gles3 progID params mask fromProgType (some c) refs =
      some (some (runStage upd gles3 progID params mask fromProgType c refs).1,
        (runStage upd gles3 progID params mask fromProgType c refs).2) := by
  induction refs generalizing c with
  | nil => rfl
  | cons r rs ih =>
      unfold updateUniformLoop runStage
      rw [updateUniformStep_some]
      by_cases h : passesFilters mask fromProgType r = true
      · simp [h, ih]
      · simp [h, ih]

theorem updateUniformLoop_remove {σ : Type} (upd : σ → Int → List Nat → Int → Bool × σ)
    (gles3 : Bool) (progID : Nat) (params : GpuProgramParameters) (mask : Nat)
    (fromProgType : GpuProgramType) (r : GLUniformReference)
    (h : passesFilters mask fromProgType r = false) (post : List GLUniformReference)
    (pre : List GLUniformReference) (cache : Option σ) :
    updateUniformLoop upd gles3 progID params mask fromProgType cache (pre ++ r :: post) =
      updateUniformLoop upd gles3 progID params mask fromProgType cache (pre ++ post) := by
  induction pre generalizing cache with
  | nil =>
      simp only [List.nil_append]
      rw [updateUniformLoop, updateUniformStep_of_not_passes upd gles3 progID params mask
        fromProgType cache r h]
      dsimp only
      cases updateUniformLoop upd gles3 progID params mask fromProgType cache post with
      | none => rfl
      | some x => simp
  | cons a pre ih =>
      simp only [List.cons_append]
      rw [updateUniformLoop, updateUniformLoop]
      cases updateUniformStep upd gles3 progID params mask fromProgType cache a with
      | none => rfl
      | some x => simp [ih]

theorem updateUniforms_remove {σ : Type} (upd : σ → Int → List Nat → Int → Bool × σ)
    (gles3 : Bool) (p : GLSLESProgramPipeline σ) (params : GpuProgramParameters) (mask : Nat)
    (fromProgType : GpuProgramType) (pre post : List GLUniformReference) (r : GLUniformReference)
    (hrefs : p.mGLUniformReferences = pre ++ r :: post)
    (h : passesFilters mask fromProgType r = false) :
    updateUniforms upd gles3 { p with mGLUniformReferences := pre ++ post } params mask
        fromProgType =
      (updateUniforms upd gles3 p params mask fromProgType).map
        (fun x => ({ x.1 with mGLUniformReferences := pre ++ post }, x.2)) := by
  unfold updateUniforms
  have hsel : selectStage { p with mGLUniformReferences := pre ++ post } fromProgType =
      selectStage p fromProgType := rfl
  rw [hsel, hrefs]
  cases hs : selectStage p fromProgType with
  | none => rfl
  | some s =>
      obtain ⟨progID, cache⟩ := s
      simp only
      rw [updateUniformLoop_remove upd gles3 progID params mask fromProgType r h post pre cache]
      cases updateUniformLoop upd gles3 progID params mask fromProgType cache (pre ++ post) with
      | none => rfl
      | some x =>
          obtain ⟨c1, evs⟩ := x
          simp only [Option.map_some']
          congr 1
          cases c1 with
          | none => rfl
          | some c =>
              cases fromProgType <;> rfl

/-! ## The variability filter (C1) -/

/-- C1. A reference whose constant definition has `variability & mask == 0` makes
`updateUniforms` dispatch no set-uniform call and consult no uniform cache: its loop iteration
produces no event and leaves the cache pointer as it was, and the whole call yields the same
events and the same cache states as on the reference list without that reference, for every
reference list, parameter block, mask and source stage. -/
theorem updateUniforms_skips_variability_mismatch {σ : Type}
    (upd : σ → Int → List Nat → Int → Bool × σ) (gles3 : Bool) (p : GLSLESProgramPipeline σ)
    (params : GpuProgramParameters) (mask : Nat) (fromProgType : GpuProgramType)
    (pre post : List GLUniformReference) (r : GLUniformReference) (progID : Nat)
    (cache : Option σ) (hrefs : p.mGLUniformReferences = pre ++ r :: post)
    (hvar : r.mConstantDef.variability &&& mask = 0) :
    updateUniformStep upd gles3 progID params mask fromProgType cache r = some (cache, []) ∧
    updateUniforms upd gles3 { p with mGLUniformReferences := pre ++ post } params mask
        fromProgType =
      (updateUniforms upd gles3 p params mask fromProgType).map
        (fun x => ({ x.1 with mGLUniformReferences := pre ++ post }, x.2)) := by
  have h : passesFilters mask fromProgType r = false := by
    simp [passesFilters, hvar]
  exact ⟨updateUniformStep_of_not_passes upd gles3 progID params mask fromProgType cache r h,
    updateUniforms_remove upd gles3 p params mask fromProgType pre post r hrefs h⟩

/-- Witness for C1: with mask 2, the variability-1 reference `timeRef` in front of `colorRef`
contributes nothing. -/
theorem updateUniforms_skips_variability_mismatch_witness :
    (samplePipeline [timeRef, colorRef]).mGLUniformReferences = [] ++ timeRef :: [colorRef] ∧
    timeRef.mConstantDef.variability &&& 2 = 0 ∧
    updateUniformStep GLUniformCache.updateUniform true 7 sampleParams 2 .GPT_VERTEX_PROGRAM
      (some GLUniformCache.empty) timeRef = some (some GLUniformCache.empty, []) ∧
    updateUniforms GLUniformCache.updateUniform true
        { samplePipeline [timeRef, colorRef] with mGLUniformReferences := [] ++ [colorRef] }
        sampleParams 2 .GPT_VERTEX_PROGRAM =
      (updateUniforms GLUniformCache.updateUniform true (samplePipeline [timeRef, colorRef])
        sampleParams 2 .GPT_VERTEX_PROGRAM).map
        (fun x => ({ x.1 with mGLUniformReferences := [] ++ [colorRef] }, x.2)) :=
  ⟨rfl, by decide,
    updateUniforms_skips_variability_mismatch GLUniformCache.updateUniform true
      (samplePipeline [timeRef, colorRef]) sampleParams 2 .GPT_VERTEX_PROGRAM [] [colorRef]
      timeRef 7 (some GLUniformCache.empty) rfl (by decide)⟩

/-! ## From one loop iteration to the whole call -/

theorem updateUniformLoop_append {σ : Type} (upd : σ → Int → List Nat → Int → Bool × σ)
    (gles3 : Bool) (progID : Nat) (params : GpuProgramParameters) (mask : Nat)
    (fromProgType : GpuProgramType) (ys : List GLUniformReference)
    (xs : List GLUniformReference) (cache : Option σ) :
    updateUniformLoop upd gles3 progID params mask fromProgType cache (xs ++ ys) =
      match updateUniformLoop upd gles3 progID params mask fromProgType cache xs with
      | none => none
      | some (c1, e1) =>
          match updateUniformLoop upd gles3 progID params mask fromProgType c1 ys with
          | none => none
          | some (c2, e2) => some (c2, e1 ++ e2) := by
  induction xs generalizing cache with
  | nil =>
      simp only [List.nil_append, updateUniformLoop]
      cases updateUniformLoop upd gles3 progID params mask fromProgType cache ys with
      | none => rfl
      | some x => simp
  | cons a xs ih =>
      simp only [List.cons_append]
      rw [updateUniformLoop, updateUniformLoop]
      cases updateUniformStep upd gles3 progID params mask fromProgType cache a with
      | none => rfl
      | some x =>
          obtain ⟨c1, e1⟩ := x
          dsimp only
          rw [ih]
          cases updateUniformLoop upd gles3 progID params mask fromProgType c1 xs with
          | none => rfl
          | some y =>
              obtain ⟨c2, e2⟩ := y
              dsimp only
              cases updateUniformLoop upd gles3 progID params mask fromProgType c2 ys with
              | none => rfl
              | some z => simp

/-- How a fact about one loop iteration lifts to the whole of `updateUniforms`: when the stage
program exists, the events of the call are the events of the references before `r`, then the
events of the iteration on `r`, then the events of the references after it. -/
theorem updateUniforms_at_reference {σ : Type} (upd : σ → Int → List Nat → Int → Bool × σ)
    (gles3 : Bool) (p : GLSLESProgramPipeline σ) (params : GpuProgramParameters) (mask : Nat)
    (fromProgType : GpuProgramType) (pre post : List GLUniformReference)
    (r : GLUniformReference) (progID : Nat) (c0 c c1 : σ) (evsPre evsAt : List UniformEvent)
    (hsel : selectStage p fromProgType = some (progID, some c0))
    (hrefs : p.mGLUniformReferences = pre ++ r :: post)
    (hpre : updateUniformLoop upd gles3 progID params mask fromProgType (some c0) pre =
      some (some c, evsPre))
    (hat : updateUniformStep upd gles3 progID params mask fromProgType (some c) r =
      some (some c1, evsAt)) :
    ∃ p1 evsPost, updateUniforms upd gles3 p params mask fromProgType =
      some (p1, evsPre ++ evsAt ++ evsPost) := by
  unfold updateUniforms
  rw [hsel]
  dsimp only
  rw [hrefs, updateUniformLoop_append, hpre]
  dsimp only
  rw [updateUniformLoop, hat]
  dsimp only
  rw [updateUniformLoop_some]
  refine ⟨p.setUniformCache fromProgType
      (some (runStage upd gles3 progID params mask fromProgType c1 post).1),
    (runStage upd gles3 progID params mask fromProgType c1 post).2, ?_⟩
  simp

theorem selectStage_of_stageProgram {σ : Type} (p : GLSLESProgramPipeline σ)
    (fromProgType : GpuProgramType) (prog : GLSLESProgram σ)
    (h : p.stageProgram fromProgType = some prog) :
    selectStage p fromProgType = some (prog.mGLProgramHandle, some prog.mUniformCache) := by
  cases fromProgType <;>
    simp only [GLSLESProgramPipeline.stageProgram, reduceCtorEq] at h <;>
    simp [selectStage, h]

/-- The whole of `updateUniforms` around one reference of the list: when the program `prog` of
the source stage exists, the call runs on the handle and the uniform cache of `prog`, and its
events are exactly the events of the references before `r`, then the events of the iteration on
`r`, then the events of the references after `r`. -/
theorem updateUniforms_split {σ : Type} (upd : σ → Int → List Nat → Int → Bool × σ)
    (gles3 : Bool) (p : GLSLESProgramPipeline σ) (params : GpuProgramParameters) (mask : Nat)
    (fromProgType : GpuProgramType) (pre post : List GLUniformReference)
    (r : GLUniformReference) (prog : GLSLESProgram σ) (c c1 : σ)
    (evsPre evsAt : List UniformEvent)
    (hprog : p.stageProgram fromProgType = some prog)
    (hrefs : p.mGLUniformReferences = pre ++ r :: post)
    (hpre : updateUniformLoop upd gles3 prog.mGLProgramHandle params mask fromProgType
      (some prog.mUniformCache) pre = some (some c, evsPre))
    (hat : updateUniformStep upd gles3 prog.mGLProgramHandle params mask fromProgType (some c) r =
      some (some c1, evsAt)) :
    ∃ cache2 evsPost,
      updateUniformLoop upd gles3 prog.mGLProgramHandle params mask fromProgType (some c1) post =
        some (cache2, evsPost) ∧
      updateUniforms upd gles3 p params mask fromProgType =
        some (p.setUniformCache fromProgType cache2, evsPre ++ evsAt ++ evsPost) := by
  refine ⟨some (runStage upd gles3 prog.mGLProgramHandle params mask fromProgType c1 post).1,
    (runStage upd gles3 prog.mGLProgramHandle params mask fromProgType c1 post).2,
    updateUniformLoop_some upd gles3 prog.mGLProgramHandle params mask fromProgType post c1, ?_⟩
  unfold updateUniforms
  rw [selectStage_of_stageProgram p fromProgType prog hprog]
  dsimp only
  rw [hrefs, updateUniformLoop_append, hpre]
  dsimp only
  rw [updateUniformLoop, hat]
  dsimp only
  rw [updateUniformLoop_some]
  simp

/-! ## Two consecutive calls on the modelled uniform cache (C2) -/

theorem processUniform_cache (gles3 : Bool) (progID : Nat) (params : GpuProgramParameters)
    (c : GLUniformCache) (r : GLUniformReference) :
    (processUniform GLUniformCache.updateUniform gles3 progID params c r).1 =
      Function.update c r.mLocation (some (cachedBytes gles3 params r)) := by
  unfold processUniform
  dsimp only
  split <;> rfl

theorem processUniform_hit (gles3 : Bool) (progID : Nat) (params : GpuProgramParameters)
    (c : GLUniformCache) (r : GLUniformReference)
    (h : c r.mLocation = some (cachedBytes gles3 params r)) :
    processUniform GLUniformCache.updateUniform gles3 progID params c r =
      (c, [.cacheUpdateUniform r.mLocation (cacheQuery gles3 params r).1
        (cacheQuery gles3 params r).2]) := by
  have hc : Function.update c r.mLocation (some (cachedBytes gles3 params r)) = c := by
    rw [← h]; exact Function.update_eq_self _ _
  have hb : (GLUniformCache.updateUniform c r.mLocation (cacheQuery gles3 params r).1
      (cacheQuery gles3 params r).2).1 = false := by
    unfold cachedBytes at h
    simp [GLUniformCache.updateUniform, h]
  have h2 : (GLUniformCache.updateUniform c r.mLocation (cacheQuery gles3 params r).1
      (cacheQuery gles3 params r).2).2 = c := hc
  unfold processUniform
  simp only [hb, h2]
  rfl

theorem runStage_cache_other (gles3 : Bool) (progID : Nat) (params : GpuProgramParameters)
    (mask : Nat) (fromProgType : GpuProgramType) (l : Int) (refs : List GLUniformReference)
    (c : GLUniformCache)
    (h : ∀ r ∈ refs, passesFilters mask fromProgType r = true → r.mLocation ≠ l) :
    (runStage GLUniformCache.updateUniform gles3 progID params mask fromProgType c refs).1 l =
      c l := by
  induction refs generalizing c with
  | nil => rfl
  | cons a rs ih =>
      have hrs : ∀ r ∈ rs, passesFilters mask fromProgType r = true → r.mLocation ≠ l :=
        fun r hr => h r (List.mem_cons_of_mem _ hr)
      unfold runStage
      by_cases ha : passesFilters mask fromProgType a = true
      · simp only [ha, if_true]
        rw [ih _ hrs, processUniform_cache]
        exact Function.update_noteq (Ne.symm (h a (List.mem_cons_self _ _) ha)) _ _
      · simp only [ha]
        exact ih c hrs

theorem runStage_records (gles3 : Bool) (progID : Nat) (params : GpuProgramParameters)
    (mask : Nat) (fromProgType : GpuProgramType) (refs : List GLUniformReference)
    (hd : DistinctLocations refs) (c : GLUniformCache) :
    ∀ r ∈ refs, passesFilters mask fromProgType r = true →
      (runStage GLUniformCache.updateUniform gles3 progID params mask fromProgType c refs).1
        r.mLocation = some (cachedBytes gles3 params r) := by
  induction refs generalizing c with
  | nil => intro r hr; cases hr
  | cons a rs ih =>
      have hd2 := List.pairwise_cons.mp hd
      intro r hr hp
      unfold runStage
      rcases List.mem_cons.mp hr with rfl | hmem
      · simp only [hp, if_true]
        rw [runStage_cache_other, processUniform_cache, Function.update_same]
        intro b hb hpb
        have hst : r.mSourceProgType = b.mSourceProgType := by
          simp only [passesFilters, Bool.and_eq_true, decide_eq_true_eq] at hp hpb
          rw [← hp.1, ← hpb.1]
        exact Ne.symm (hd2.1 b hb hst)
      · by_cases ha : passesFilters mask fromProgType a = true
        · simp only [ha, if_true]
          exact ih hd2.2 _ r hmem hp
        · simp only [ha]
          exact ih hd2.2 c r hmem hp

theorem runStage_all_hits (gles3 : Bool) (progID : Nat) (params : GpuProgramParameters)
    (mask : Nat) (fromProgType : GpuProgramType) (c : GLUniformCache)
    (refs : List GLUniformReference)
    (h : ∀ r ∈ refs, passesFilters mask fromProgType r = true →
      c r.mLocation = some (cachedBytes gles3 params r)) :
    (runStage GLUniformCache.updateUniform gles3 progID params mask fromProgType c refs).1 = c ∧
    dispatches
      (runStage GLUniformCache.updateUniform gles3 progID params mask fromProgType c refs).2
      = [] := by
  induction refs with
  | nil => exact ⟨rfl, rfl⟩
  | cons a rs ih =>
      have ih2 := ih (fun r hr => h r (List.mem_cons_of_mem _ hr))
      unfold runStage
      by_cases ha : passesFilters mask fromProgType a = true
      · simp only [ha, if_true]
        rw [processUniform_hit gles3 progID params c a (h a (List.mem_cons_self _ _) ha)]
        refine ⟨ih2.1, ?_⟩
        simp only [dispatches, List.singleton_append, List.filter_cons, UniformEvent.isDispatch]
        exact ih2.2
      · simp only [ha]
        exact ih2

theorem updateUniformLoop_null {σ : Type} (upd : σ → Int → List Nat → Int → Bool × σ)
    (gles3 : Bool) (progID : Nat) (params : GpuProgramParameters) (mask : Nat)
    (fromProgType : GpuProgramType) (refs : List GLUniformReference)
    (x : Option σ × List UniformEvent)
    (h : updateUniformLoop upd gles3 progID params mask fromProgType none refs = some x) :
    x = (none, []) := by
  induction refs generalizing x with
  | nil => simpa [updateUniformLoop] using h.symm
  | cons a rs ih =>
      unfold updateUniformLoop at h
      by_cases ha : passesFilters mask fromProgType a = true
      · exfalso
        unfold updateUniformStep at h
        simp only [passesFilters, Bool.and_eq_true, decide_eq_true_eq] at ha
        simp [ha.1, ha.2] at h
      · rw [updateUniformStep_of_not_passes upd gles3 progID params mask fromProgType none a
          (by simpa using ha)] at h
        dsimp only at h
        cases hl : updateUniformLoop upd gles3 progID params mask fromProgType none rs with
        | none => rw [hl] at h; cases h
        | some y =>
            rw [hl] at h
            have hy := ih y hl
            subst hy
            simpa using h.symm

theorem selectStage_setUniformCache {σ : Type} (p : GLSLESProgramPipeline σ)
    (fromProgType : GpuProgramType) (progID : Nat) (c c1 : σ)
    (h : selectStage p fromProgType = some (progID, some c)) :
    selectStage (p.setUniformCache fromProgType (some c1)) fromProgType =
        some (progID, some c1) ∧
      (p.setUniformCache fromProgType (some c1)).setUniformCache fromProgType (some c1) =
        p.setUniformCache fromProgType (some c1) := by
  cases fromProgType <;> simp only [selectStage, reduceCtorEq, if_false, if_true] at h
  · cases hv : p.mVertexProgram with
    | none => rw [hv] at h; cases h
    | some vp =>
        rw [hv] at h
        simp only [Option.some.injEq, Prod.mk.injEq] at h
        simp [selectStage, GLSLESProgramPipeline.setUniformCache, hv, h.1]
  · cases hf : p.mFragmentProgram with
    | none => rw [hf] at h; cases h
    | some fp =>
        rw [hf] at h
        simp only [Option.some.injEq, Prod.mk.injEq] at h
        simp [selectStage, GLSLESProgramPipeline.setUniformCache, hf, h.1]
  all_goals simp at h

theorem setUniformCache_refs {σ : Type} (p : GLSLESProgramPipeline σ)
    (fromProgType : GpuProgramType) (cache : Option σ) :
    (p.setUniformCache fromProgType cache).mGLUniformReferences = p.mGLUniformReferences := by
  cases cache with
  | none => rfl
  | some c => cases fromProgType <;> rfl

/-- C2. With the uniform cache modelled as "`updateUniform(location, bytes)` returns true iff
the bytes differ from the last bytes recorded for that location, and records them", and with no
two references of one stage sharing a location: when a call of `updateUniforms` has returned,
the next call with the same arguments and the same parameter block returns as well, leaves the
pipeline (its caches included) as it is and dispatches zero set-uniform driver calls, for every
parameter block, mask and stage. -/
theorem updateUniforms_second_call_dispatches_nothing (gles3 : Bool)
    (p p1 : GLSLESProgramPipeline GLUniformCache) (params : GpuProgramParameters) (mask : Nat)
    (fromProgType : GpuProgramType) (evs1 : List UniformEvent)
    (hinv : DistinctLocations p.mGLUniformReferences)
    (hfirst : updateUniforms GLUniformCache.updateUniform gles3 p params mask fromProgType =
      some (p1, evs1)) :
    ∃ evs2, updateUniforms GLUniformCache.updateUniform gles3 p1 params mask fromProgType =
      some (p1, evs2) ∧ dispatches evs2 = [] := by
  unfold updateUniforms at hfirst
  cases hs : selectStage p fromProgType with
  | none => rw [hs] at hfirst; cases hfirst
  | some s =>
      obtain ⟨progID, cache⟩ := s
      rw [hs] at hfirst
      dsimp only at hfirst
      cases cache with
      | none =>
          cases hl : updateUniformLoop GLUniformCache.updateUniform gles3 progID params mask
              fromProgType none p.mGLUniformReferences with
          | none => rw [hl] at hfirst; cases hfirst
          | some x =>
              rw [hl] at hfirst
              have hx := updateUniformLoop_null _ gles3 progID params mask fromProgType _ x hl
              subst hx
              simp only [GLSLESProgramPipeline.setUniformCache, Option.some.injEq,
                Prod.mk.injEq] at hfirst
              obtain ⟨hp, hev⟩ := hfirst
              subst hp
              refine ⟨[], ?_, rfl⟩
              unfold updateUniforms
              rw [hs]
              dsimp only
              rw [hl]
              rfl
      | some c =>
          rw [updateUniformLoop_some] at hfirst
          simp only [Option.some.injEq, Prod.mk.injEq] at hfirst
          obtain ⟨hp, hev⟩ := hfirst
          have hsel := selectStage_setUniformCache p fromProgType progID c
            (runStage GLUniformCache.updateUniform gles3 progID params mask fromProgType c
              p.mGLUniformReferences).1 hs
          rw [hp] at hsel
          have hrefs : p1.mGLUniformReferences = p.mGLUniformReferences := by
            rw [← hp]; exact setUniformCache_refs p fromProgType _
          have hrec := runStage_records gles3 progID params mask fromProgType
            p.mGLUniformReferences hinv c
          have hits := runStage_all_hits gles3 progID params mask fromProgType _
            p.mGLUniformReferences hrec
          refine ⟨_, ?_, hits.2⟩
          unfold updateUniforms
          rw [hsel.1]
          dsimp only
          rw [hrefs, updateUniformLoop_some, hits.1]
          dsimp only
          rw [hsel.2]

/-- Witness for C2: the `float4 color` scenario, called twice. -/
theorem updateUniforms_second_call_dispatches_nothing_witness :
    DistinctLocations (samplePipeline [colorRef, texRef]).mGLUniformReferences ∧
    ∃ p1 evs1,
      updateUniforms GLUniformCache.updateUniform true (samplePipeline [colorRef, texRef])
        sampleParams 2 .GPT_VERTEX_PROGRAM = some (p1, evs1) ∧
      dispatches evs1 = [.glProgramUniform .glProgramUniform4fvEXT 7 3 1
        (sampleParams.getFloatPointer 0)] ∧
      ∃ evs2, updateUniforms GLUniformCache.updateUniform true p1 sampleParams 2
        .GPT_VERTEX_PROGRAM = some (p1, evs2) ∧ dispatches evs2 = [] :=
  have hinv : DistinctLocations (samplePipeline [colorRef, texRef]).mGLUniformReferences := by
    simp [DistinctLocations, samplePipeline, colorRef, texRef]
  ⟨hinv, _, _, rfl, by decide,
    updateUniforms_second_call_dispatches_nothing true (samplePipeline [colorRef, texRef]) _
      sampleParams 2 .GPT_VERTEX_PROGRAM _ hinv rfl⟩

/-! ## Type dispatch (C3, C4, C6) -/

theorem toGLsizei_of_lt (n : Nat) (h : n < 2 ^ 31) : toGLsizei n = (n : Int) := by
  have h1 : n % 2 ^ 32 = n := Nat.mod_eq_of_lt (by omega)
  unfold toGLsizei
  rw [h1, if_pos h]

theorem updateUniformStep_changed {σ : Type} (upd : σ → Int → List Nat → Int → Bool × σ)
    (gles3 : Bool) (progID : Nat) (params : GpuProgramParameters) (mask : Nat)
    (fromProgType : GpuProgramType) (c : σ) (r : GLUniformReference)
    (hstage : fromProgType = r.mSourceProgType) (hvar : r.mConstantDef.variability &&& mask ≠ 0)
    (hchg : (upd c r.mLocation (cacheQuery gles3 params r).1 (cacheQuery gles3 params r).2).1 =
      true) :
    updateUniformStep upd gles3 progID params mask fromProgType (some c) r =
      some (some (upd c r.mLocation (cacheQuery gles3 params r).1
          (cacheQuery gles3 params r).2).2,
        .cacheUpdateUniform r.mLocation (cacheQuery gles3 params r).1
          (cacheQuery gles3 params r).2 :: dispatchUniform gles3 progID params r) := by
  unfold updateUniformStep processUniform
  simp [hstage, hvar, hchg]

theorem updateUniformStep_unchanged {σ : Type} (upd : σ → Int → List Nat → Int → Bool × σ)
    (gles3 : Bool) (progID : Nat) (params : GpuProgramParameters) (mask : Nat)
    (fromProgType : GpuProgramType) (c : σ) (r : GLUniformReference)
    (hstage : fromProgType = r.mSourceProgType) (hvar : r.mConstantDef.variability &&& mask ≠ 0)
    (hchg : (upd c r.mLocation (cacheQuery gles3 params r).1 (cacheQuery gles3 params r).2).1 =
      false) :
    updateUniformStep upd gles3 progID params mask fromProgType (some c) r =
      some (some (upd c r.mLocation (cacheQuery gles3 params r).1
          (cacheQuery gles3 params r).2).2,
        [.cacheUpdateUniform r.mLocation (cacheQuery gles3 params r).1
          (cacheQuery gles3 params r).2]) := by
  unfold updateUniformStep processUniform
  simp [hstage, hvar, hchg]

theorem dispatchUniform_vector (gles3 : Bool) (progID : Nat) (params : GpuProgramParameters)
    (r : GLUniformReference) (fn : UniformFn)
    (hfn : specVectorFn r.mConstantDef.constType = some fn) :
    dispatchUniform gles3 progID params r =
      [.glProgramUniform fn progID r.mLocation (toGLsizei r.mConstantDef.arraySize)
        (if fn.isInt then params.getIntPointer r.mConstantDef.physicalIndex
          else params.getFloatPointer r.mConstantDef.physicalIndex)] := by
  obtain ⟨loc, st, ⟨ct, idx, es, sz, v⟩⟩ := r
  cases ct <;> simp [specVectorFn] at hfn <;> subst hfn <;>
    simp [dispatchUniform, UniformFn.isInt]

theorem dispatchUniform_matrix (gles3 : Bool) (progID : Nat) (params : GpuProgramParameters)
    (r : GLUniformReference) (fn : MatrixFn)
    (hfn : specMatrixFn r.mConstantDef.constType = some fn)
    (htier : gles3 = true ∨ r.mConstantDef.constType.isNonSquareMatrix = false) :
    dispatchUniform gles3 progID params r =
      [.glProgramUniformMatrix fn progID r.mLocation (toGLsizei r.mConstantDef.arraySize) false
        (params.getFloatPointer r.mConstantDef.physicalIndex)] := by
  obtain ⟨loc, st, ⟨ct, idx, es, sz, v⟩⟩ := r
  cases ct <;> simp [specMatrixFn] at hfn <;> subst hfn <;>
    simp [GpuConstantType.isNonSquareMatrix] at htier <;>
    simp [dispatchUniform, htier]

theorem dispatchUniform_nonsquare_reduced (progID : Nat) (params : GpuProgramParameters)
    (r : GLUniformReference) (h : r.mConstantDef.constType.isNonSquareMatrix = true) :
    dispatchUniform false progID params r = [] := by
  obtain ⟨loc, st, ⟨ct, idx, es, sz, v⟩⟩ := r
  cases ct <;> simp [GpuConstantType.isNonSquareMatrix] at h <;> simp [dispatchUniform]

/-- C3 as amended. Let `r` be a reference of the pipeline's list that passes the stage and
variability filters, with `arraySize` below 2^31 (the range of the driver's count type), and let
the uniform cache of the source stage report a change for it. Then a call of `updateUniforms`
consists of the events of the references before `r`, then for `r` one consultation of the cache
followed by exactly one set-uniform call selected by `constType`, then the events of the
references after `r`: float1..4 and int1..4 give the float or integer vector call of that arity;
matrix MxN gives the MxN matrix call with transpose = false; on the reduced feature tier (no
GLES3 support) a non-square matrix gives no call. The call is sent to the handle of the program
of the source stage and uses the reference's location, element count equal to the definition's
`arraySize`, and the pointer into the parameter block at `physicalIndex`. -/
theorem updateUniforms_dispatch_by_constType {σ : Type}
    (upd : σ → Int → List Nat → Int → Bool × σ) (gles3 : Bool) (p : GLSLESProgramPipeline σ)
    (params : GpuProgramParameters) (mask : Nat) (fromProgType : GpuProgramType)
    (pre post : List GLUniformReference) (r : GLUniformReference) (prog : GLSLESProgram σ)
    (c : σ) (evsPre : List UniformEvent)
    (hprog : p.stageProgram fromProgType = some prog)
    (hrefs : p.mGLUniformReferences = pre ++ r :: post)
    (hpre : updateUniformLoop upd gles3 prog.mGLProgramHandle params mask fromProgType
      (some prog.mUniformCache) pre = some (some c, evsPre))
    (hstage : fromProgType = r.mSourceProgType)
    (hvar : r.mConstantDef.variability &&& mask ≠ 0)
    (hchg : (upd c r.mLocation (cacheQuery gles3 params r).1 (cacheQuery gles3 params r).2).1 =
      true)
    (hsize : r.mConstantDef.arraySize < 2 ^ 31) :
    ∃ cache2 evsPost dispatched,
      updateUniformLoop upd gles3 prog.mGLProgramHandle params mask fromProgType
          (some (upd c r.mLocation (cacheQuery gles3 params r).1
            (cacheQuery gles3 params r).2).2) post = some (cache2, evsPost) ∧
      updateUniforms upd gles3 p params mask fromProgType =
        some (p.setUniformCache fromProgType cache2,
          evsPre ++ (.cacheUpdateUniform r.mLocation (cacheQuery gles3 params r).1
            (cacheQuery gles3 params r).2 :: dispatched) ++ evsPost) ∧
      (∀ fn, specVectorFn r.mConstantDef.constType = some fn →
        dispatched =
          [.glProgramUniform fn prog.mGLProgramHandle r.mLocation
            (r.mConstantDef.arraySize : Int)
            (if fn.isInt then params.getIntPointer r.mConstantDef.physicalIndex
              else params.getFloatPointer r.mConstantDef.physicalIndex)]) ∧
      (∀ fn, specMatrixFn r.mConstantDef.constType = some fn →
        (gles3 = true ∨ r.mConstantDef.constType.isNonSquareMatrix = false) →
        dispatched =
          [.glProgramUniformMatrix fn prog.mGLProgramHandle r.mLocation
            (r.mConstantDef.arraySize : Int) false
            (params.getFloatPointer r.mConstantDef.physicalIndex)]) ∧
      (r.mConstantDef.constType.isNonSquareMatrix = true → gles3 = false →
        dispatched = []) := by
  obtain ⟨cache2, evsPost, hpost, hrun⟩ :=
    updateUniforms_split upd gles3 p params mask fromProgType pre post r prog c _ evsPre _
      hprog hrefs hpre
      (updateUniformStep_changed upd gles3 prog.mGLProgramHandle params mask fromProgType c r
        hstage hvar hchg)
  refine ⟨cache2, evsPost, dispatchUniform gles3 prog.mGLProgramHandle params r, hpost, hrun,
    ?_, ?_, ?_⟩
  · intro fn hfn
    rw [dispatchUniform_vector gles3 prog.mGLProgramHandle params r fn hfn,
      toGLsizei_of_lt _ hsize]
  · intro fn hfn htier
    rw [dispatchUniform_matrix gles3 prog.mGLProgramHandle params r fn hfn htier,
      toGLsizei_of_lt _ hsize]
  · intro hns hg
    subst hg
    exact dispatchUniform_nonsquare_reduced prog.mGLProgramHandle params r hns

/-- Witness for C3: the vertex stage declares `float4 color` at physical index 0 with
variability 2; `updateUniforms` with mask 2 on the vertex stage and float constants starting
`[1.0, 0.0, 0.0, 1.0]` consults the cache and makes one 4-float vector call, to the vertex
program handle 7, of exactly those values. -/
theorem updateUniforms_dispatch_by_constType_witness :
    (samplePipeline [timeRef, colorRef]).stageProgram .GPT_VERTEX_PROGRAM =
      some (sampleProgram "vs" 7 true) ∧
    GpuProgramType.GPT_VERTEX_PROGRAM = colorRef.mSourceProgType ∧
    colorRef.mConstantDef.variability &&& 2 ≠ 0 ∧
    (GLUniformCache.updateUniform GLUniformCache.empty colorRef.mLocation
      (cacheQuery true sampleParams colorRef).1 (cacheQuery true sampleParams colorRef).2).1 =
      true ∧
    colorRef.mConstantDef.arraySize < 2 ^ 31 ∧
    specVectorFn colorRef.mConstantDef.constType = some .glProgramUniform4fvEXT ∧
    (UniformEvent.glProgramUniform .glProgramUniform4fvEXT 7 3 1
      (sampleParams.getFloatPointer 0)).uploaded = [0x3F800000, 0, 0, 0x3F800000] ∧
    ∃ p1, updateUniforms GLUniformCache.updateUniform true (samplePipeline [timeRef, colorRef])
        sampleParams 2 .GPT_VERTEX_PROGRAM =
      some (p1, [.cacheUpdateUniform 3 (sampleParams.getFloatPointer 0) 16,
        .glProgramUniform .glProgramUniform4fvEXT 7 3 1 (sampleParams.getFloatPointer 0)]) := by
  refine ⟨rfl, rfl, by decide, by decide, by decide, rfl, by decide, ?_⟩
  obtain ⟨cache2, evsPost, dispatched, hpost, hrun, hvec, -, -⟩ :=
    updateUniforms_dispatch_by_constType GLUniformCache.updateUniform true
      (samplePipeline [timeRef, colorRef]) sampleParams 2 .GPT_VERTEX_PROGRAM [timeRef] []
      colorRef (sampleProgram "vs" 7 true) GLUniformCache.empty [] rfl rfl rfl rfl (by decide)
      (by decide) (by decide)
  have hd := hvec .glProgramUniform4fvEXT rfl
  have hp : evsPost = [] := by
    simp only [updateUniformLoop, Option.some.injEq, Prod.mk.injEq] at hpost
    exact hpost.2.symm
  subst hd hp
  exact ⟨_, hrun⟩

/-- Counterexample to C3 as stated: on the reduced feature tier the vertex constant `mat2x3`
passes both filters and the cache reports a change for it, yet `updateUniforms` only consults
the cache and issues no matrix call. -/
theorem updateUniforms_dispatch_by_constType_counterexample :
    (samplePipeline [mat23Ref]).stageProgram .GPT_VERTEX_PROGRAM =
      some (sampleProgram "vs" 7 true) ∧
    GpuProgramType.GPT_VERTEX_PROGRAM = mat23Ref.mSourceProgType ∧
    mat23Ref.mConstantDef.variability &&& 2 ≠ 0 ∧
    (GLUniformCache.updateUniform GLUniformCache.empty mat23Ref.mLocation
      (cacheQuery false sampleParams mat23Ref).1 (cacheQuery false sampleParams mat23Ref).2).1 =
      true ∧
    specMatrixFn mat23Ref.mConstantDef.constType = some .glProgramUniformMatrix2x3fvEXT ∧
    (updateUniforms GLUniformCache.updateUniform false (samplePipeline [mat23Ref]) sampleParams
      2 .GPT_VERTEX_PROGRAM).map Prod.snd =
      some [.cacheUpdateUniform 6 (sampleParams.getFloatPointer 0) 24] :=
  ⟨rfl, rfl, by decide, by decide, rfl, rfl⟩

theorem dispatchUniform_sampler (gles3 : Bool) (progID : Nat) (params : GpuProgramParameters)
    (r : GLUniformReference) (hkind : specUploadedSampler gles3 r.mConstantDef.constType = true) :
    dispatchUniform gles3 progID params r =
      [.glProgramUniform .glProgramUniform1ivEXT progID r.mLocation 1
        (params.getIntPointer r.mConstantDef.physicalIndex)] ∧
    cacheQuery gles3 params r =
      (params.getIntPointer r.mConstantDef.physicalIndex,
        toGLsizei (r.mConstantDef.elementSize * r.mConstantDef.arraySize * 4)) := by
  obtain ⟨loc, st, ⟨ct, idx, es, sz, v⟩⟩ := r
  cases ct <;> simp [specUploadedSampler] at hkind <;>
    simp [dispatchUniform, cacheQuery, cachedAsInt, hkind]

theorem updateUniformStep_sampler {σ : Type}
    (upd : σ → Int → List Nat → Int → Bool × σ) (gles3 : Bool) (progID : Nat)
    (params : GpuProgramParameters) (mask : Nat) (fromProgType : GpuProgramType) (c : σ)
    (r : GLUniformReference)
    (hkind : specUploadedSampler gles3 r.mConstantDef.constType = true)
    (hstage : fromProgType = r.mSourceProgType)
    (hvar : r.mConstantDef.variability &&& mask ≠ 0) :
    updateUniformStep upd gles3 progID params mask fromProgType (some c) r =
      some (some (upd c r.mLocation (params.getIntPointer r.mConstantDef.physicalIndex)
          (toGLsizei (r.mConstantDef.elementSize * r.mConstantDef.arraySize * 4))).2,
        .cacheUpdateUniform r.mLocation (params.getIntPointer r.mConstantDef.physicalIndex)
            (toGLsizei (r.mConstantDef.elementSize * r.mConstantDef.arraySize * 4)) ::
          (if (upd c r.mLocation (params.getIntPointer r.mConstantDef.physicalIndex)
              (toGLsizei (r.mConstantDef.elementSize * r.mConstantDef.arraySize * 4))).1 then
            [.glProgramUniform .glProgramUniform1ivEXT progID r.mLocation 1
              (params.getIntPointer r.mConstantDef.physicalIndex)]
          else [])) ∧
    (UniformEvent.glProgramUniform .glProgramUniform1ivEXT progID r.mLocation 1
        (params.getIntPointer r.mConstantDef.physicalIndex)).uploaded =
      (params.mIntConstants.drop r.mConstantDef.physicalIndex).take 1 := by
  have hs := dispatchUniform_sampler gles3 progID params r hkind
  refine ⟨?_, rfl⟩
  cases hb : (upd c r.mLocation (params.getIntPointer r.mConstantDef.physicalIndex)
      (toGLsizei (r.mConstantDef.elementSize * r.mConstantDef.arraySize * 4))).1 with
  | true =>
      have hchg : (upd c r.mLocation (cacheQuery gles3 params r).1
          (cacheQuery gles3 params r).2).1 = true := by rw [hs.2]; exact hb
      rw [updateUniformStep_changed upd gles3 progID params mask fromProgType c r hstage hvar
        hchg, hs.1, hs.2]
      rfl
  | false =>
      have hchg : (upd c r.mLocation (cacheQuery gles3 params r).1
          (cacheQuery gles3 params r).2).1 = false := by rw [hs.2]; exact hb
      rw [updateUniformStep_unchanged upd gles3 progID params mask fromProgType c r hstage hvar
        hchg, hs.2]
      rfl

/-- C4. Let `r` be a reference of the pipeline's list of a sampler kind (1D, 1D-shadow, 2D,
2D-shadow, 3D, cube, and 2D-array where supported) that passes the stage and variability
filters, whatever its `arraySize`. Then a call of `updateUniforms` consists of the events of the
references before `r`, then for `r` one consultation of the cache with the int pointer, followed
when the cache reports a change by exactly one call, the 1-integer vector call with element
count 1 to the handle of the source stage's program on the int pointer at `physicalIndex`, which
uploads one integer (and by no call when the cache reports no change), then the events of the
references after `r`. -/
theorem updateUniforms_sampler_uploads_one_int {σ : Type}
    (upd : σ → Int → List Nat → Int → Bool × σ) (gles3 : Bool) (p : GLSLESProgramPipeline σ)
    (params : GpuProgramParameters) (mask : Nat) (fromProgType : GpuProgramType)
    (pre post : List GLUniformReference) (r : GLUniformReference) (prog : GLSLESProgram σ)
    (c : σ) (evsPre : List UniformEvent)
    (hprog : p.stageProgram fromProgType = some prog)
    (hrefs : p.mGLUniformReferences = pre ++ r :: post)
    (hpre : updateUniformLoop upd gles3 prog.mGLProgramHandle params mask fromProgType
      (some prog.mUniformCache) pre = some (some c, evsPre))
    (hkind : specUploadedSampler gles3 r.mConstantDef.constType = true)
    (hstage : fromProgType = r.mSourceProgType)
    (hvar : r.mConstantDef.variability &&& mask ≠ 0) :
    ∃ cache2 evsPost,
      updateUniformLoop upd gles3 prog.mGLProgramHandle params mask fromProgType
          (some (upd c r.mLocation (params.getIntPointer r.mConstantDef.physicalIndex)
            (toGLsizei (r.mConstantDef.elementSize * r.mConstantDef.arraySize * 4))).2) post =
        some (cache2, evsPost) ∧
      updateUniforms upd gles3 p params mask fromProgType =
        some (p.setUniformCache fromProgType cache2,
          evsPre ++
            (.cacheUpdateUniform r.mLocation (params.getIntPointer r.mConstantDef.physicalIndex)
                (toGLsizei (r.mConstantDef.elementSize * r.mConstantDef.arraySize * 4)) ::
              (if (upd c r.mLocation (params.getIntPointer r.mConstantDef.physicalIndex)
                  (toGLsizei (r.mConstantDef.elementSize * r.mConstantDef.arraySize * 4))).1 then
                [.glProgramUniform .glProgramUniform1ivEXT prog.mGLProgramHandle r.mLocation 1
                  (params.getIntPointer r.mConstantDef.physicalIndex)]
              else [])) ++ evsPost) ∧
      (UniformEvent.glProgramUniform .glProgramUniform1ivEXT prog.mGLProgramHandle r.mLocation 1
          (params.getIntPointer r.mConstantDef.physicalIndex)).uploaded =
        (params.mIntConstants.drop r.mConstantDef.physicalIndex).take 1 := by
  obtain ⟨cache2, evsPost, hpost, hrun⟩ :=
    updateUniforms_split upd gles3 p params mask fromProgType pre post r prog c _ evsPre _
      hprog hrefs hpre
      (updateUniformStep_sampler upd gles3 prog.mGLProgramHandle params mask fromProgType c r
        hkind hstage hvar).1
  exact ⟨cache2, evsPost, hpost, hrun, rfl⟩

/-- Witness for C4: the fragment stage declares `sampler2D tex` at physical index 4 with
`arraySize` 3; `updateUniforms` with mask 2 on the fragment stage makes exactly one 1-int call
with count 1, to the fragment program handle 8, that uploads texture unit 2. -/
theorem updateUniforms_sampler_uploads_one_int_witness :
    (samplePipeline [colorRef, texRef]).stageProgram .GPT_FRAGMENT_PROGRAM =
      some (sampleProgram "fs" 8 true) ∧
    specUploadedSampler true texRef.mConstantDef.constType = true ∧
    GpuProgramType.GPT_FRAGMENT_PROGRAM = texRef.mSourceProgType ∧
    texRef.mConstantDef.variability &&& 2 ≠ 0 ∧
    texRef.mConstantDef.arraySize = 3 ∧
    (UniformEvent.glProgramUniform .glProgramUniform1ivEXT 8 3 1
      (sampleParams.getIntPointer 4)).uploaded = [2] ∧
    ∃ p1, updateUniforms GLUniformCache.updateUniform true (samplePipeline [colorRef, texRef])
        sampleParams 2 .GPT_FRAGMENT_PROGRAM =
      some (p1, [.cacheUpdateUniform 3 (sampleParams.getIntPointer 4) 12,
        .glProgramUniform .glProgramUniform1ivEXT 8 3 1 (sampleParams.getIntPointer 4)]) := by
  refine ⟨rfl, rfl, rfl, by decide, rfl, by decide, ?_⟩
  obtain ⟨cache2, evsPost, hpost, hrun, -⟩ :=
    updateUniforms_sampler_uploads_one_int GLUniformCache.updateUniform true
      (samplePipeline [colorRef, texRef]) sampleParams 2 .GPT_FRAGMENT_PROGRAM [colorRef] []
      texRef (sampleProgram "fs" 8 true) GLUniformCache.empty [] rfl rfl rfl rfl rfl (by decide)
  have hp : evsPost = [] := by
    simp only [updateUniformLoop, Option.some.injEq, Prod.mk.injEq] at hpost
    exact hpost.2.symm
  subst hp
  exact ⟨_, hrun⟩

theorem dispatchUniform_event (gles3 : Bool) (progID : Nat) (params : GpuProgramParameters)
    (r : GLUniformReference) :
    ∀ e ∈ dispatchUniform gles3 progID params r,
      e.progID? = some progID ∧ e.location = r.mLocation := by
  obtain ⟨loc, st, ⟨ct, idx, es, sz, v⟩⟩ := r
  cases ct <;> cases gles3 <;>
    simp [dispatchUniform, UniformEvent.progID?, UniformEvent.location]

theorem processUniform_event {σ : Type} (upd : σ → Int → List Nat → Int → Bool × σ)
    (gles3 : Bool) (progID : Nat) (params : GpuProgramParameters) (c : σ)
    (r : GLUniformReference) :
    ∀ e ∈ (processUniform upd gles3 progID params c r).2,
      e.location = r.mLocation ∧ (e.isDispatch = true → e.progID? = some progID) := by
  intro e he
  unfold processUniform at he
  dsimp only at he
  split at he
  · simp only [List.mem_singleton] at he
    subst he
    exact ⟨rfl, fun h => by simp [UniformEvent.isDispatch] at h⟩
  · rcases List.mem_cons.mp he with rfl | hd
    · exact ⟨rfl, fun h => by simp [UniformEvent.isDispatch] at h⟩
    · have := dispatchUniform_event gles3 progID params r e hd
      exact ⟨this.2, fun _ => this.1⟩

theorem runStage_event {σ : Type} (upd : σ → Int → List Nat → Int → Bool × σ)
    (gles3 : Bool) (progID : Nat) (params : GpuProgramParameters) (mask : Nat)
    (fromProgType : GpuProgramType) (refs : List GLUniformReference) (c : σ) :
    ∀ e ∈ (runStage upd gles3 progID params mask fromProgType c refs).2,
      ∃ r ∈ refs, passesFilters mask fromProgType r = true ∧ e.location = r.mLocation ∧
        (e.isDispatch = true → e.progID? = some progID) := by
  induction refs generalizing c with
  | nil => intro e he; cases he
  | cons a rs ih =>
      intro e he
      unfold runStage at he
      by_cases ha : passesFilters mask fromProgType a = true
      · simp only [ha, if_true] at he
        rcases List.mem_append.mp he with h1 | h2
        · have := processUniform_event upd gles3 progID params c a e h1
          exact ⟨a, List.mem_cons_self _ _, ha, this.1, this.2⟩
        · obtain ⟨r, hr, hrest⟩ := ih _ e h2
          exact ⟨r, List.mem_cons_of_mem _ hr, hrest⟩
      · simp only [ha] at he
        obtain ⟨r, hr, hrest⟩ := ih _ e he
        exact ⟨r, List.mem_cons_of_mem _ hr, hrest⟩

theorem updateUniformLoop_filter {σ : Type} (upd : σ → Int → List Nat → Int → Bool × σ)
    (gles3 : Bool) (progID : Nat) (params : GpuProgramParameters) (mask : Nat)
    (fromProgType : GpuProgramType) (q : GLUniformReference → Bool)
    (hq : ∀ r, q r = false → passesFilters mask fromProgType r = false)
    (refs : List GLUniformReference) (cache : Option σ) :
    updateUniformLoop upd gles3 progID params mask fromProgType cache (refs.filter q) =
      updateUniformLoop upd gles3 progID params mask fromProgType cache refs := by
  induction refs generalizing cache with
  | nil => rfl
  | cons a rs ih =>
      cases hqa : q a with
      | true =>
          rw [List.filter_cons_of_pos (by simpa using hqa), updateUniformLoop, updateUniformLoop]
          cases updateUniformStep upd gles3 progID params mask fromProgType cache a with
          | none => rfl
          | some x => simp [ih]
      | false =>
          rw [List.filter_cons_of_neg (by simp [hqa]), ih]
          conv_rhs => rw [updateUniformLoop]
          rw [updateUniformStep_of_not_passes upd gles3 progID params mask fromProgType cache a
            (hq a hqa)]
          dsimp only
          cases updateUniformLoop upd gles3 progID params mask fromProgType cache rs with
          | none => rfl
          | some x => simp

theorem selectStage_stageProgram {σ : Type} (p : GLSLESProgramPipeline σ)
    (fromProgType : GpuProgramType) (progID : Nat) (c : σ)
    (h : selectStage p fromProgType = some (progID, some c)) :
    ∃ prog, p.stageProgram fromProgType = some prog ∧ prog.mGLProgramHandle = progID := by
  cases fromProgType <;> simp only [selectStage, reduceCtorEq, if_false, if_true] at h
  · cases hv : p.mVertexProgram with
    | none => rw [hv] at h; cases h
    | some vp =>
        rw [hv] at h
        simp only [Option.some.injEq, Prod.mk.injEq] at h
        exact ⟨vp, hv, h.1⟩
  · cases hf : p.mFragmentProgram with
    | none => rw [hf] at h; cases h
    | some fp =>
        rw [hf] at h
        simp only [Option.some.injEq, Prod.mk.injEq] at h
        exact ⟨fp, hf, h.1⟩
  all_goals simp at h

theorem setUniformCache_other_stage {σ : Type} (p : GLSLESProgramPipeline σ)
    (fromProgType : GpuProgramType) (cache : Option σ) :
    (fromProgType ≠ .GPT_VERTEX_PROGRAM →
      (p.setUniformCache fromProgType cache).mVertexProgram = p.mVertexProgram) ∧
    (fromProgType ≠ .GPT_FRAGMENT_PROGRAM →
      (p.setUniformCache fromProgType cache).mFragmentProgram = p.mFragmentProgram) := by
  cases cache with
  | none => exact ⟨fun _ => rfl, fun _ => rfl⟩
  | some c => cases fromProgType <;> simp [GLSLESProgramPipeline.setUniformCache]

/-- C5. When `updateUniforms(params, mask, sourceStage)` returns, every event it produced, a
set-uniform call or a consultation of the uniform cache, is about the location of a reference
tagged `sourceStage` whose variability meets the mask, and every set-uniform call targets the
program handle of `sourceStage`; the run on the reference list stripped of all references of
other stages produces the same events and the same state; the reference list is unchanged, and
the pipeline differs from the one before at most in the uniform cache of `sourceStage` (the
program of the other stage is left as it was). -/
theorem updateUniforms_touches_only_source_stage {σ : Type}
    (upd : σ → Int → List Nat → Int → Bool × σ) (gles3 : Bool) (p p1 : GLSLESProgramPipeline σ)
    (params : GpuProgramParameters) (mask : Nat) (fromProgType : GpuProgramType)
    (evs : List UniformEvent)
    (h : updateUniforms upd gles3 p params mask fromProgType = some (p1, evs)) :
    (∀ e ∈ evs, ∃ r ∈ p.mGLUniformReferences,
      r.mSourceProgType = fromProgType ∧ r.mConstantDef.variability &&& mask ≠ 0 ∧
      e.location = r.mLocation ∧
      (e.isDispatch = true → ∃ prog, p.stageProgram fromProgType = some prog ∧
        e.progID? = some prog.mGLProgramHandle)) ∧
    updateUniforms upd gles3
        { p with mGLUniformReferences :=
            p.mGLUniformReferences.filter (fun r => decide (r.mSourceProgType = fromProgType)) }
        params mask fromProgType =
      some ({ p1 with mGLUniformReferences :=
            p.mGLUniformReferences.filter (fun r => decide (r.mSourceProgType = fromProgType)) },
        evs) ∧
    p1.mGLUniformReferences = p.mGLUniformReferences ∧
    (∃ cache, p1 = p.setUniformCache fromProgType cache) ∧
    (fromProgType ≠ .GPT_VERTEX_PROGRAM → p1.mVertexProgram = p.mVertexProgram) ∧
    (fromProgType ≠ .GPT_FRAGMENT_PROGRAM → p1.mFragmentProgram = p.mFragmentProgram) := by
  have hq : ∀ r : GLUniformReference, decide (r.mSourceProgType = fromProgType) = false →
      passesFilters mask fromProgType r = false := by
    intro r hr
    have : ¬ fromProgType = r.mSourceProgType := fun e => by simp [e] at hr
    simp [passesFilters, this]
  have hfilt : updateUniforms upd gles3
      { p with mGLUniformReferences :=
          p.mGLUniformReferences.filter (fun r => decide (r.mSourceProgType = fromProgType)) }
      params mask fromProgType =
      (updateUniforms upd gles3 p params mask fromProgType).map
        (fun x => ({ x.1 with mGLUniformReferences :=
          p.mGLUniformReferences.filter (fun r => decide (r.mSourceProgType = fromProgType)) },
          x.2)) := by
    unfold updateUniforms
    have hsel : selectStage { p with mGLUniformReferences :=
        p.mGLUniformReferences.filter (fun r => decide (r.mSourceProgType = fromProgType)) }
        fromProgType = selectStage p fromProgType := rfl
    rw [hsel]
    cases hs : selectStage p fromProgType with
    | none => rfl
    | some s =>
        obtain ⟨progID, cache⟩ := s
        dsimp only
        rw [updateUniformLoop_filter upd gles3 progID params mask fromProgType _ hq]
        cases updateUniformLoop upd gles3 progID params mask fromProgType cache
            p.mGLUniformReferences with
        | none => rfl
        | some x =>
            obtain ⟨c1, evs⟩ := x
            simp only [Option.map_some']
            congr 1
            cases c1 with
            | none => rfl
            | some c => cases fromProgType <;> rfl
  rw [h] at hfilt
  refine ⟨?_, hfilt, ?_⟩
  · unfold updateUniforms at h
    cases hs : selectStage p fromProgType with
    | none => rw [hs] at h; cases h
    | some s =>
        obtain ⟨progID, cache⟩ := s
        rw [hs] at h
        dsimp only at h
        cases cache with
        | none =>
            cases hl : updateUniformLoop upd gles3 progID params mask fromProgType none
                p.mGLUniformReferences with
            | none => rw [hl] at h; cases h
            | some x =>
                have hx := updateUniformLoop_null upd gles3 progID params mask fromProgType _ x hl
                subst hx
                rw [hl] at h
                simp only [Option.some.injEq, Prod.mk.injEq] at h
                intro e he
                rw [← h.2] at he
                cases he
        | some c =>
            rw [updateUniformLoop_some] at h
            simp only [Option.some.injEq, Prod.mk.injEq] at h
            obtain ⟨prog, hprog, hid⟩ := selectStage_stageProgram p fromProgType progID c hs
            intro e he
            rw [← h.2] at he
            obtain ⟨r, hr, hp, hloc, hd⟩ :=
              runStage_event upd gles3 progID params mask fromProgType _ c e he
            simp only [passesFilters, Bool.and_eq_true, decide_eq_true_eq] at hp
            exact ⟨r, hr, hp.1.symm, hp.2, hloc, fun hdis => ⟨prog, hprog, by rw [hid]; exact hd hdis⟩⟩
  · unfold updateUniforms at h
    cases hs : selectStage p fromProgType with
    | none => rw [hs] at h; cases h
    | some s =>
        obtain ⟨progID, cache⟩ := s
        rw [hs] at h
        dsimp only at h
        cases hl : updateUniformLoop upd gles3 progID params mask fromProgType cache
            p.mGLUniformReferences with
        | none => rw [hl] at h; cases h
        | some x =>
            rw [hl] at h
            simp only [Option.some.injEq, Prod.mk.injEq] at h
            rw [← h.1]
            exact ⟨setUniformCache_refs p fromProgType _, ⟨_, rfl⟩,
              setUniformCache_other_stage p fromProgType _⟩

/-- Witness for C5: a vertex update on a pipeline that also holds the fragment reference
`texRef`, which shares location 3 with the vertex reference `colorRef`. -/
theorem updateUniforms_touches_only_source_stage_witness :
    ∃ p1 evs,
      updateUniforms GLUniformCache.updateUniform true (samplePipeline [colorRef, texRef])
        sampleParams 2 .GPT_VERTEX_PROGRAM = some (p1, evs) ∧
      evs = [.cacheUpdateUniform 3 (sampleParams.getFloatPointer 0) 16,
        .glProgramUniform .glProgramUniform4fvEXT 7 3 1 (sampleParams.getFloatPointer 0)] ∧
      p1.mGLUniformReferences = (samplePipeline [colorRef, texRef]).mGLUniformReferences ∧
      p1.mFragmentProgram = (samplePipeline [colorRef, texRef]).mFragmentProgram :=
  have h := updateUniforms_touches_only_source_stage GLUniformCache.updateUniform true
    (samplePipeline [colorRef, texRef]) _ sampleParams 2 .GPT_VERTEX_PROGRAM _ rfl
  ⟨_, _, rfl, rfl, h.2.2.1, h.2.2.2.2.2 (by decide)⟩

/-! ## Reference build and activation (C7, C8) -/

/-- C7. `buildGLUniformReferences` is idempotent: whatever the driver would answer, a second
call returns the pipeline the first call produced, so the uniform reference list and the
uniform buffer reference list are identical, and it performs no call at all, in particular no
uniform extraction. -/
theorem buildGLUniformReferences_idempotent {σ : Type} (drv1 drv2 : Driver)
    (p : GLSLESProgramPipeline σ) :
    buildGLUniformReferences drv2 (buildGLUniformReferences drv1 p).1 =
      ((buildGLUniformReferences drv1 p).1, []) ∧
    (buildGLUniformReferences drv2 (buildGLUniformReferences drv1 p).1).1.mGLUniformReferences =
      (buildGLUniformReferences drv1 p).1.mGLUniformReferences ∧
    (buildGLUniformReferences drv2
        (buildGLUniformReferences drv1 p).1).1.mGLUniformBufferReferences =
      (buildGLUniformReferences drv1 p).1.mGLUniformBufferReferences ∧
    (buildGLUniformReferences drv2 (buildGLUniformReferences drv1 p).1).2 = [] := by
  have hbuilt : (buildGLUniformReferences drv1 p).1.mUniformRefsBuilt = true := by
    unfold buildGLUniformReferences
    cases hb : p.mUniformRefsBuilt <;> simp [hb]
  have h : buildGLUniformReferences drv2 (buildGLUniformReferences drv1 p).1 =
      ((buildGLUniformReferences drv1 p).1, []) := by
    generalize buildGLUniformReferences drv1 p = x at hbuilt
    unfold buildGLUniformReferences
    simp [hbuilt]
  rw [h]
  exact ⟨rfl, rfl, rfl, rfl⟩

theorem buildGLUniformReferences_flags {σ : Type} (drv : Driver)
    (p : GLSLESProgramPipeline σ) :
    (buildGLUniformReferences drv p).1.mLinked = p.mLinked ∧
    (buildGLUniformReferences drv p).1.mTriedToLinkAndFailed = p.mTriedToLinkAndFailed := by
  unfold buildGLUniformReferences
  cases hb : p.mUniformRefsBuilt <;> simp

theorem compileAndLinkVertex_frame {σ : Type} (drv : Driver) (p : GLSLESProgramPipeline σ) :
    (compileAndLinkVertex drv p).1.mFragmentProgram = p.mFragmentProgram ∧
    (compileAndLinkVertex drv p).1.mLinked =
      (if vertexStageSucceeds drv p then p.mLinked ||| VERTEX_PROGRAM_LINKED else p.mLinked) ∧
    ((compileAndLinkVertex drv p).2.2 = true →
      (compileAndLinkVertex drv p).1.mTriedToLinkAndFailed = true ∧
      vertexStageSucceeds drv p = false) := by
  unfold compileAndLinkVertex vertexStageSucceeds
  cases hv : p.mVertexProgram with
  | none => simp
  | some vp =>
      cases hl : vp.mLinked with
      | true => simp [hl]
      | false =>
          cases hc : drv.vertex.microcodeInCache with
          | true => simp [hl, hc]
          | false =>
              cases hk : drv.vertex.compileOk with
              | false => simp [hl, hc, hk]
              | true =>
                  by_cases hs : drv.vertex.linkStatus = 0 <;> simp [hl, hc, hk, hs]

theorem compileAndLinkFragment_compile_failure {σ : Type} (drv : Driver)
    (p : GLSLESProgramPipeline σ) (fp : GLSLESProgram σ) (hfp : p.mFragmentProgram = some fp)
    (hnl : fp.mLinked = false) (hcache : drv.fragment.microcodeInCache = false)
    (hcomp : drv.fragment.compileOk = false) :
    (compileAndLinkFragment drv p).2.2 = true ∧
    (compileAndLinkFragment drv p).1.mLinked = p.mLinked ∧
    (compileAndLinkFragment drv p).1.mTriedToLinkAndFailed = true := by
  unfold compileAndLinkFragment
  simp [hfp, hnl, hcache, hcomp]

theorem compileAndLink_fragment_compile_failure {σ : Type} (drv : Driver)
    (p : GLSLESProgramPipeline σ) (fp : GLSLESProgram σ) (hfp : p.mFragmentProgram = some fp)
    (hnl : fp.mLinked = false) (hcache : drv.fragment.microcodeInCache = false)
    (hcomp : drv.fragment.compileOk = false) :
    (compileAndLink drv p).1.mTriedToLinkAndFailed = true ∧
    (compileAndLink drv p).1.mLinked =
      (if vertexStageSucceeds drv p then p.mLinked ||| VERTEX_PROGRAM_LINKED else p.mLinked) := by
  have hv := compileAndLinkVertex_frame drv { p with mGLProgramHandle := drv.pipelineHandle }
  have hsucc : vertexStageSucceeds drv { p with mGLProgramHandle := drv.pipelineHandle } =
      vertexStageSucceeds drv p := rfl
  rw [hsucc] at hv
  unfold compileAndLink
  dsimp only
  rcases hx : compileAndLinkVertex drv { p with mGLProgramHandle := drv.pipelineHandle } with
    ⟨p1, evs1, ab⟩
  rw [hx] at hv
  dsimp only at hv
  cases ab with
  | true =>
      dsimp only
      have h3 := hv.2.2 rfl
      refine ⟨h3.1, ?_⟩
      rw [hv.2.1, h3.2]
  | false =>
      dsimp only
      have hf := compileAndLinkFragment_compile_failure drv p1 fp (by rw [hv.1]; exact hfp) hnl
        hcache hcomp
      rcases hy : compileAndLinkFragment drv p1 with ⟨p2, evs2, ab2⟩
      rw [hy] at hf
      dsimp only at hf
      obtain ⟨hab, hl, ht⟩ := hf
      subst hab
      dsimp only
      exact ⟨ht, by rw [hl, hv.2.1]⟩

/-- C8 as amended. For an unlinked pipeline (`mLinked == 0`) whose fragment stage is not
already linked, has no cached microcode and fails to compile: after `activate()`
`triedToLinkAndFailed` is true, and `mLinked` is `VERTEX_PROGRAM_LINKED` when the activation
ran (the pipeline had not failed before) and the vertex stage succeeded in it (already linked,
microcode cached, or compiled and linked), and 0 otherwise. -/
theorem activate_fragment_compile_failure {σ : Type} (glslOptimiser : Bool) (drv : Driver)
    (p : GLSLESProgramPipeline σ) (fp : GLSLESProgram σ) (hunlinked : p.mLinked = 0)
    (hfp : p.mFragmentProgram = some fp) (hnl : fp.mLinked = false)
    (hcache : drv.fragment.microcodeInCache = false)
    (hcomp : drv.fragment.compileOk = false) :
    (activate glslOptimiser drv p).1.mTriedToLinkAndFailed = true ∧
    (activate glslOptimiser drv p).1.mLinked =
      (if p.mTriedToLinkAndFailed = false ∧ vertexStageSucceeds drv p = true then
        VERTEX_PROGRAM_LINKED else 0) := by
  have hact : ∀ r : GLSLESProgramPipeline σ × List LifecycleEvent,
      (if r.1.mLinked ≠ 0 then (r.1, r.2 ++ [.glBindProgramPipelineEXT r.1.mGLProgramHandle])
        else r).1 = r.1 := by
    intro r; split <;> rfl
  unfold activate
  dsimp only
  rw [hact]
  cases ht : p.mTriedToLinkAndFailed with
  | true => simp [hunlinked, ht]
  | false =>
      have hc := compileAndLink_fragment_compile_failure drv p fp hfp hnl hcache hcomp
      have hb := buildGLUniformReferences_flags drv (compileAndLink drv p).1
      simp only [hunlinked, ht, and_self, if_true, true_and]
      rw [hb.1, hb.2, hc.1, hc.2, hunlinked, Nat.zero_or]
      exact ⟨rfl, rfl⟩

/-- Witness for C8 as amended: the vertex stage fails to link and the fragment stage fails to
compile. -/
theorem activate_fragment_compile_failure_witness :
    freshPipeline.mLinked = 0 ∧
    (activate true (sampleDriver (stageLinkFails 11) (stageCompileFails 12))
      freshPipeline).1.mTriedToLinkAndFailed = true ∧
    (activate true (sampleDriver (stageLinkFails 11) (stageCompileFails 12))
      freshPipeline).1.mLinked =
      (if freshPipeline.mTriedToLinkAndFailed = false ∧
          vertexStageSucceeds (sampleDriver (stageLinkFails 11) (stageCompileFails 12))
            freshPipeline = true then
        VERTEX_PROGRAM_LINKED else 0) :=
  ⟨rfl, activate_fragment_compile_failure true
    (sampleDriver (stageLinkFails 11) (stageCompileFails 12)) freshPipeline
    (sampleProgram "fs" 0 false) rfl rfl rfl rfl rfl⟩

/-- Counterexample to C8 as stated: the pipeline is unlinked, its fragment stage is not linked,
has no cached microcode and fails to compile, the vertex stage compiles and links; after
`activate()` the linked bitmask is `VERTEX_PROGRAM_LINKED`, not 0. -/
theorem activate_fragment_compile_failure_counterexample :
    freshPipeline.mLinked = 0 ∧
    freshPipeline.mFragmentProgram = some (sampleProgram "fs" 0 false) ∧
    (sampleProgram "fs" 0 false).mLinked = false ∧
    (sampleDriver (stageLinks 11) (stageCompileFails 12)).fragment.microcodeInCache = false ∧
    (sampleDriver (stageLinks 11) (stageCompileFails 12)).fragment.compileOk = false ∧
    (activate true (sampleDriver (stageLinks 11) (stageCompileFails 12))
      freshPipeline).1.mLinked = 1 ∧
    (activate true (sampleDriver (stageLinks 11) (stageCompileFails 12))
      freshPipeline).1.mLinked ≠ 0 ∧
    (activate true (sampleDriver (stageLinks 11) (stageCompileFails 12))
      freshPipeline).1.mTriedToLinkAndFailed = true :=
  ⟨rfl, rfl, rfl, rfl, rfl, rfl, by decide, rfl⟩

/-! ## Sticky failure (C9, C10) -/

theorem activate_of_failed {σ : Type} (glslOptimiser : Bool) (drv : Driver)
    (p : GLSLESProgramPipeline σ) (hfailed : p.mTriedToLinkAndFailed = true) :
    activate glslOptimiser drv p =
      (p, if p.mLinked ≠ 0 then [.glBindProgramPipelineEXT p.mGLProgramHandle] else []) := by
  unfold activate
  by_cases hl : p.mLinked = 0 <;> simp [hfailed, hl]

theorem activateAll_of_failed {σ : Type} (glslOptimiser : Bool) (drvs : List Driver)
    (p : GLSLESProgramPipeline σ) (hfailed : p.mTriedToLinkAndFailed = true) :
    (activateAll glslOptimiser drvs p).1 = p ∧
    ∀ e ∈ (activateAll glslOptimiser drvs p).2,
      e = .glBindProgramPipelineEXT p.mGLProgramHandle := by
  induction drvs with
  | nil => exact ⟨rfl, fun e he => by cases he⟩
  | cons drv rest ih =>
      unfold activateAll
      dsimp only
      rw [activate_of_failed glslOptimiser drv p hfailed]
      refine ⟨ih.1, ?_⟩
      intro e he
      rcases List.mem_append.mp he with h1 | h2
      · by_cases hl : p.mLinked = 0
        · simp [hl] at h1
        · simpa [hl] using h1
      · exact ih.2 e h2

/-- C9. Failure is sticky: in every pipeline state in which `triedToLinkAndFailed` is true,
`activate()` returns the pipeline unchanged (so the linked bitmask and `triedToLinkAndFailed`
keep their values) and its only possible call is the bind of the pipeline object, made when the
linked bitmask is non-zero: no microcode-cache lookup, no compile, no link. Hence any sequence
of `activate()` calls from such a state, whatever the driver would answer, leaves the pipeline
unchanged and never attempts to compile again. -/
theorem activate_failure_is_sticky {σ : Type} (glslOptimiser : Bool) (drv : Driver)
    (drvs : List Driver) (p : GLSLESProgramPipeline σ)
    (hfailed : p.mTriedToLinkAndFailed = true) :
    activate glslOptimiser drv p =
      (p, if p.mLinked ≠ 0 then [.glBindProgramPipelineEXT p.mGLProgramHandle] else []) ∧
    (∀ e ∈ (activate glslOptimiser drv p).2, e.isBuildAttempt = false) ∧
    (activateAll glslOptimiser drvs p).1 = p ∧
    (∀ e ∈ (activateAll glslOptimiser drvs p).2, e.isBuildAttempt = false) := by
  have h1 := activate_of_failed glslOptimiser drv p hfailed
  have h2 := activateAll_of_failed glslOptimiser drvs p hfailed
  refine ⟨h1, ?_, h2.1, ?_⟩
  · intro e he
    rw [h1] at he
    by_cases hl : p.mLinked = 0
    · simp [hl] at he
    · have : e = .glBindProgramPipelineEXT p.mGLProgramHandle := by simpa [hl] using he
      rw [this]; rfl
  · intro e he
    rw [h2.2 e he]; rfl

/-- Witness for C9: the state left by an activation in which the fragment stage failed to
compile, activated again twice with a driver that would now compile and link both stages. -/
theorem activate_failure_is_sticky_witness :
    (activate true (sampleDriver (stageLinks 11) (stageCompileFails 12))
      freshPipeline).1.mTriedToLinkAndFailed = true ∧
    (activateAll true
      [sampleDriver (stageLinks 11) (stageLinks 12), sampleDriver (stageLinks 11) (stageLinks 12)]
      (activate true (sampleDriver (stageLinks 11) (stageCompileFails 12)) freshPipeline).1).1 =
      (activate true (sampleDriver (stageLinks 11) (stageCompileFails 12)) freshPipeline).1 ∧
    (activateAll true
      [sampleDriver (stageLinks 11) (stageLinks 12), sampleDriver (stageLinks 11) (stageLinks 12)]
      (activate true (sampleDriver (stageLinks 11) (stageCompileFails 12)) freshPipeline).1).2 =
      [.glBindProgramPipelineEXT 1, .glBindProgramPipelineEXT 1] :=
  ⟨rfl,
    (activate_failure_is_sticky true (sampleDriver (stageLinks 11) (stageLinks 12))
      [sampleDriver (stageLinks 11) (stageLinks 12), sampleDriver (stageLinks 11) (stageLinks 12)]
      (activate true (sampleDriver (stageLinks 11) (stageCompileFails 12)) freshPipeline).1
      rfl).2.2.1,
    rfl⟩

/-- C10, the code at the failing input. The vertex stage compiles and fails to link
(`glLinkProgram 11` is issued and the link status is 0); the fragment stage is then loaded from
the microcode cache, or compiles and links. In both runs `compileAndLink` returns with
`triedToLinkAndFailed` false and the fragment bit as the linked bitmask, whereas a fragment
link failure after a vertex success does leave the flag set. -/
theorem compileAndLink_loses_vertex_link_failure :
    (stageLinkFails 11).compileOk = true ∧ (stageLinkFails 11).linkStatus = 0 ∧
    LifecycleEvent.glLinkProgram 11 ∈
      (compileAndLink (sampleDriver (stageLinkFails 11) (stageCached 12)) freshPipeline).2 ∧
    (compileAndLink (sampleDriver (stageLinkFails 11) (stageCached 12))
      freshPipeline).1.mTriedToLinkAndFailed = false ∧
    (compileAndLink (sampleDriver (stageLinkFails 11) (stageCached 12))
      freshPipeline).1.mLinked = FRAGMENT_PROGRAM_LINKED ∧
    (compileAndLink (sampleDriver (stageLinkFails 11) (stageLinks 12))
      freshPipeline).1.mTriedToLinkAndFailed = false ∧
    (compileAndLink (sampleDriver (stageLinkFails 11) (stageLinks 12))
      freshPipeline).1.mLinked = FRAGMENT_PROGRAM_LINKED ∧
    (compileAndLink (sampleDriver (stageLinks 11) (stageLinkFails 12))
      freshPipeline).1.mTriedToLinkAndFailed = true :=
  ⟨rfl, rfl, by decide, rfl, rfl, rfl, rfl, rfl⟩

/-! ## Write-back to the microcode cache (C12) -/

theorem blockInnerLoop_eq (drv : BlockDriver) (program : Nat) (it : GpuSharedParametersUsage)
    (buffers : List Nat) :
    blockInnerLoop drv program it buffers =
      (buffers.flatMap (fun b => blockStep drv program it b), []) := by
  induction buffers with
  | nil => rfl
  | cons b rest ih =>
      unfold blockInnerLoop
      rw [ih]
      simp [List.flatMap_cons]

theorem blockOuterLoop_exhausted (drv : BlockDriver) (program : Nat)
    (its : List GpuSharedParametersUsage) : blockOuterLoop drv program its [] = [] := by
  induction its with
  | nil => rfl
  | cons it rest ih =>
      unfold blockOuterLoop
      simp [blockInnerLoop, ih]

/-- What `updateUniformBlocks` does with uniform buffer support: the buffer iterator is not
reset between usages, so every buffer is bound and rewritten once, with the first usage, and
the later usages get no step; the number of steps is n when there is a usage, not m*n. -/
theorem updateUniformBlocks_first_usage_only {σ : Type} (drv : BlockDriver)
    (p : GLSLESProgramPipeline σ) (params : GpuProgramParameters) (mask : Nat)
    (fromProgType : GpuProgramType) :
    updateUniformBlocks true drv p params mask fromProgType =
      (match params.mSharedParamSets with
        | [] => []
        | u :: _ =>
            p.mGLUniformBufferReferences.flatMap (fun b => blockStep drv p.mGLProgramHandle u b)) ∧
    blockStepCount (updateUniformBlocks true drv p params mask fromProgType) =
      (if params.mSharedParamSets = [] then 0 else p.mGLUniformBufferReferences.length) := by
  have hcount : ∀ (u : GpuSharedParametersUsage) (bufs : List Nat),
      blockStepCount (bufs.flatMap (fun b => blockStep drv p.mGLProgramHandle u b)) =
        bufs.length := by
    intro u bufs
    induction bufs with
    | nil => rfl
    | cons b rest ih =>
        unfold blockStepCount at ih ⊢
        simp only [List.flatMap_cons, List.filter_append, List.length_append, ih]
        simp [blockStep, Nat.add_comm]
  unfold updateUniformBlocks
  simp only [if_true]
  cases hu : params.mSharedParamSets with
  | nil => exact ⟨rfl, rfl⟩
  | cons u rest =>
      have h : blockOuterLoop drv p.mGLProgramHandle (u :: rest) p.mGLUniformBufferReferences =
          p.mGLUniformBufferReferences.flatMap (fun b => blockStep drv p.mGLProgramHandle u b) := by
        unfold blockOuterLoop
        rw [blockInnerLoop_eq]
        simp [blockOuterLoop_exhausted]
      rw [h]
      exact ⟨rfl, by simp [hcount]⟩

/-- C11, the code at the failing input. On the tier with uniform buffer support, with the two
shared-parameter usages `A` and `B` (m = 2) and one uniform buffer reference (n = 1),
`updateUniformBlocks` performs one block-binding and write step, the one for the pair
(`A`, buffer 30), where the cross-product has two steps; the step for the pair (`B`, buffer 30)
is never made, so the buffer is never written with the float constants of `B`. -/
theorem updateUniformBlocks_skips_later_usages :
    blockParams.mSharedParamSets.length = 2 ∧
    blockPipeline.mGLUniformBufferReferences.length = 1 ∧
    updateUniformBlocks true sampleBlockDriver blockPipeline blockParams 0 .GPT_VERTEX_PROGRAM =
      blockStep sampleBlockDriver 1 usageA 30 ∧
    blockStepCount (updateUniformBlocks true sampleBlockDriver blockPipeline blockParams 0
      .GPT_VERTEX_PROGRAM) = 1 ∧
    specBlockSteps sampleBlockDriver 1 blockParams.mSharedParamSets
        blockPipeline.mGLUniformBufferReferences =
      blockStep sampleBlockDriver 1 usageA 30 ++ blockStep sampleBlockDriver 1 usageB 30 ∧
    blockStepCount (specBlockSteps sampleBlockDriver 1 blockParams.mSharedParamSets
      blockPipeline.mGLUniformBufferReferences) = 2 ∧
    BlockEvent.writeData 30 0 16 usageB.mFloatConstants ∉
      updateUniformBlocks true sampleBlockDriver blockPipeline blockParams 0
        .GPT_VERTEX_PROGRAM :=
  ⟨rfl, rfl, rfl, by decide, rfl, by decide, by decide⟩

/-! ## Pass-iteration uniform (C13) -/

theorem passIterationDispatch_eq {σ : Type} (p : GLSLESProgramPipeline σ)
    (params : GpuProgramParameters) (index : Nat) (r : GLUniformReference) :
    passIterationDispatch p params index r =
      (match p.stageProgram r.mSourceProgType with
        | none => []
        | some prog =>
            [.glProgramUniform .glProgramUniform1fvEXT prog.mGLProgramHandle r.mLocation 1
              (params.getFloatPointer index)]) := by
  unfold passIterationDispatch GLSLESProgramPipeline.stageProgram
  cases r.mSourceProgType <;> cases p.mVertexProgram <;> cases p.mFragmentProgram <;> simp

theorem passIterationScan_eq {σ : Type} (p : GLSLESProgramPipeline σ)
    (params : GpuProgramParameters) (index : Nat) (refs : List GLUniformReference) :
    passIterationScan p params index refs =
      (match refs.find? (fun r => decide (r.mConstantDef.physicalIndex = index)) with
        | none => []
        | some r => passIterationDispatch p params index r) := by
  induction refs with
  | nil => rfl
  | cons a rest ih =>
      unfold passIterationScan
      by_cases h : index = a.mConstantDef.physicalIndex
      · simp [h]
      · have h2 : ¬ a.mConstantDef.physicalIndex = index := fun e => h e.symm
        simp [h, h2, ih]

theorem updatePassIterationUniforms_eq_guarded {σ : Type} (p : GLSLESProgramPipeline σ)
    (params : GpuProgramParameters) :
    updatePassIterationUniforms p params = specPassIterationCalls p params ∧
    (updatePassIterationUniforms p params).length ≤ 1 := by
  have h : updatePassIterationUniforms p params = specPassIterationCalls p params := by
    unfold updatePassIterationUniforms specPassIterationCalls
    cases params.mActivePassIterationIndex with
    | none => rfl
    | some index =>
        dsimp only
        rw [passIterationScan_eq]
        cases p.mGLUniformReferences.find?
            (fun r => decide (r.mConstantDef.physicalIndex = index)) with
        | none => rfl
        | some r =>
            dsimp only
            rw [passIterationDispatch_eq]
  refine ⟨h, ?_⟩
  rw [h]
  unfold specPassIterationCalls
  cases params.mActivePassIterationIndex with
  | none => simp
  | some index =>
      dsimp only
      cases p.mGLUniformReferences.find?
          (fun r => decide (r.mConstantDef.physicalIndex = index)) with
      | none => simp
      | some r =>
          dsimp only
          cases p.stageProgram r.mSourceProgType <;> simp

theorem passIterationScan_no_match {σ : Type} (p : GLSLESProgramPipeline σ)
    (params : GpuProgramParameters) (index : Nat) (refs : List GLUniformReference)
    (h : ∀ r ∈ refs, r.mConstantDef.physicalIndex ≠ index) :
    passIterationScan p params index refs = [] := by
  induction refs with
  | nil => rfl
  | cons a rest ih =>
      unfold passIterationScan
      have ha : ¬ index = a.mConstantDef.physicalIndex :=
        fun e => h a (List.mem_cons_self _ _) e.symm
      rw [if_neg ha]
      exact ih (fun r hr => h r (List.mem_cons_of_mem _ hr))

theorem passIterationScan_first_match {σ : Type} (p : GLSLESProgramPipeline σ)
    (params : GpuProgramParameters) (index : Nat) (r : GLUniformReference)
    (post : List GLUniformReference) (hr : r.mConstantDef.physicalIndex = index)
    (pre : List GLUniformReference) (h : ∀ x ∈ pre, x.mConstantDef.physicalIndex ≠ index) :
    passIterationScan p params index (pre ++ r :: post) =
      passIterationDispatch p params index r := by
  induction pre with
  | nil =>
      simp only [List.nil_append]
      unfold passIterationScan
      rw [if_pos hr.symm]
  | cons a rest ih =>
      simp only [List.cons_append]
      unfold passIterationScan
      have ha : ¬ index = a.mConstantDef.physicalIndex :=
        fun e => h a (List.mem_cons_self _ _) e.symm
      rw [if_neg ha]
      exact ih (fun x hx => h x (List.mem_cons_of_mem _ hx))

/-- C13. In a pipeline that has the program of the stage of every reference in its list,
`updatePassIterationUniforms` dispatches at most one set-uniform call: none when the parameter
block has no pass-iteration number or no reference has `physicalIndex` equal to the
pass-iteration index; otherwise exactly one single-element float call, for the first reference
in list order whose `physicalIndex` equals that index (compared without regard to stage), sent
to the program handle of that reference's own stage, on the float pointer at that index, and
nothing for the references after it, since the scan stops there. -/
theorem updatePassIterationUniforms_single_call {σ : Type} (p : GLSLESProgramPipeline σ)
    (params : GpuProgramParameters) (hinv : StageProgramsPresent p) :
    (updatePassIterationUniforms p params).length ≤ 1 ∧
    (params.mActivePassIterationIndex = none → updatePassIterationUniforms p params = []) ∧
    (∀ index, params.mActivePassIterationIndex = some index →
      (∀ r ∈ p.mGLUniformReferences, r.mConstantDef.physicalIndex ≠ index) →
      updatePassIterationUniforms p params = []) ∧
    (∀ index pre r post, params.mActivePassIterationIndex = some index →
      p.mGLUniformReferences = pre ++ r :: post →
      (∀ x ∈ pre, x.mConstantDef.physicalIndex ≠ index) →
      r.mConstantDef.physicalIndex = index →
      ∃ prog, p.stageProgram r.mSourceProgType = some prog ∧
        updatePassIterationUniforms p params =
          [.glProgramUniform .glProgramUniform1fvEXT prog.mGLProgramHandle r.mLocation 1
            (params.getFloatPointer index)]) := by
  refine ⟨(updatePassIterationUniforms_eq_guarded p params).2, ?_, ?_, ?_⟩
  · intro hnone
    unfold updatePassIterationUniforms
    rw [hnone]
  · intro index hidx hno
    unfold updatePassIterationUniforms
    rw [hidx]
    exact passIterationScan_no_match p params index _ hno
  · intro index pre r post hidx hrefs hpre hr
    have hmem : r ∈ p.mGLUniformReferences := by
      rw [hrefs]; exact List.mem_append_right _ (List.mem_cons_self _ _)
    have hsome := hinv r hmem
    cases hp : p.stageProgram r.mSourceProgType with
    | none => rw [hp] at hsome; cases hsome
    | some prog =>
        refine ⟨prog, rfl, ?_⟩
        unfold updatePassIterationUniforms
        rw [hidx]
        dsimp only
        rw [hrefs, passIterationScan_first_match p params index r post hr pre hpre,
          passIterationDispatch_eq, hp]

/-- Witness for C13: the pass-iteration number lives at physical index 4; the fragment
reference `passRef` is the first reference at that index and the vertex reference `timeRef`
after it is at that index too: the one call goes to the fragment program handle 8 at the
location of `passRef`. -/
theorem updatePassIterationUniforms_single_call_witness :
    StageProgramsPresent (samplePipeline [colorRef, passRef, timeRef]) ∧
    passParams.mActivePassIterationIndex = some 4 ∧
    (samplePipeline [colorRef, passRef, timeRef]).mGLUniformReferences =
      [colorRef] ++ passRef :: [timeRef] ∧
    passRef.mConstantDef.physicalIndex = 4 ∧
    timeRef.mConstantDef.physicalIndex = 4 ∧
    updatePassIterationUniforms (samplePipeline [colorRef, passRef, timeRef]) passParams =
      [.glProgramUniform .glProgramUniform1fvEXT 8 2 1 (passParams.getFloatPointer 4)] := by
  have hinv : StageProgramsPresent (samplePipeline [colorRef, passRef, timeRef]) := by
    intro r hr
    simp only [samplePipeline, List.mem_cons, List.mem_singleton, List.not_mem_nil,
      or_false] at hr
    rcases hr with rfl | rfl | rfl <;> rfl
  refine ⟨hinv, rfl, rfl, rfl, rfl, ?_⟩
  obtain ⟨prog, hprog, hrun⟩ :=
    (updatePassIterationUniforms_single_call (samplePipeline [colorRef, passRef, timeRef])
      passParams hinv).2.2.2 4 [colorRef] passRef [timeRef] rfl rfl
      (by intro x hx; simp only [List.mem_singleton] at hx; subst hx; decide) rfl
  have hprog2 : prog = sampleProgram "fs" 8 true := (Option.some.inj hprog).symm
  subst hprog2
  exact hrun

end Ogre
